import Mathlib

/-!
Verification development for the Spotme terraform-provider-aws resources
(AWS Elemental MediaLive / MediaPackage CRUD adapters and the EKS token
ARN canonicalizer).

The Go sources are shallowly embedded: pointer-typed SDK struct fields
become `Option` values (`none` = nil pointer), Go slices become `List`s,
fallible paths return `Except`, and Go runtime panics are made explicit
through a `GoPanic` error type.  Where a source file bundles two revisions
of the same resource, the earlier revision's definitions carry a `V1`
suffix (or the later a `V2` suffix) and a comment points at the revision.
-/

deriving instance DecidableEq for Except

/-! ## Small Go string primitives, modelled on `List Char` so that every
definition reduces in the kernel. -/

/-- Embeds `aws.StringValue`: dereference a `*string`, with nil mapped to `""`. -/
def stringValue : Option String → String
  | some s => s
  | none => ""

/-- Does the character list `l` start with `p`?  (Models Go's
`strings.HasPrefix` on the underlying bytes, restricted to ASCII data.) -/
def startsList : List Char → List Char → Bool
  | _, [] => true
  | [], _ :: _ => false
  | c :: cs, p :: ps => c == p && startsList cs ps

/-- Does `hay` contain `needle` as a contiguous sublist?  (Models Go's
`strings.Contains`.) -/
def containsList : List Char → List Char → Bool
  | [], needle => needle.isEmpty
  | c :: cs, needle => startsList (c :: cs) needle || containsList cs needle

/-- Go `strings.HasPrefix` on strings. -/
def strStarts (s p : String) : Bool := startsList s.data p.data

/-- Go `strings.Contains` on strings. -/
def strContains (hay needle : String) : Bool := containsList hay.data needle.data

/-- Split a character list at every occurrence of the character `c`,
keeping empty segments; models Go's `strings.Split` for a one-character
separator (`strings.Split("", sep) = [""]` included). -/
def splitOnChar (c : Char) : List Char → List (List Char)
  | [] => [[]]
  | x :: xs =>
    if x == c then [] :: splitOnChar c xs
    else
      match splitOnChar c xs with
      | [] => [[x]]
      | h :: t => (x :: h) :: t

/-- Go `strings.Split(s, sep)` for a one-character separator. -/
def strSplit (s : String) (c : Char) : List String :=
  (splitOnChar c s.data).map (fun cs => String.mk cs)

/-- Go `strings.Join(parts, sep)`. -/
def strJoin (sep : String) : List String → String
  | [] => ""
  | [x] => x
  | x :: y :: t => x ++ sep ++ strJoin sep (y :: t)

/-- Go `strings.SplitN(s, ":", 6)`: at most six substrings, the last one
holding the unsplit remainder. -/
def goSplitColonN6 (s : String) : List String :=
  let ps := strSplit s ':'
  if ps.length ≤ 6 then ps
  else ps.take 5 ++ [strJoin ":" (ps.drop 5)]

/-! ## src/aws/internal/service/eks/token/arn.go -/

/-- The parsed ARN structure of `aws-sdk-go/aws/arn.ARN` (only the fields
`Canonicalize` reads). -/
structure ARN where
  Partition : String
  Service : String
  Region : String
  AccountID : String
  Resource : String
  deriving DecidableEq, Repr

/-- Embeds `aws-sdk-go/aws/arn.Parse`: require the literal "arn:" at the start,
split into exactly six colon-separated sections, and read the fields
positionally.  (This is the dependency `Canonicalize` calls; embedded from
the SDK's own four-line implementation.) -/
def arnParse (arn : String) : Except String ARN :=
  if strStarts arn "arn:" then
    match goSplitColonN6 arn with
    | [_, p, sv, rg, acct, res] => .ok ⟨p, sv, rg, acct, res⟩
    | _ => .error "arn: not enough sections"
  else .error "arn: invalid ARN"

/-- Embeds `checkPartition` from arn.go: only the aws, aws-cn and aws-us-gov
partition identifiers are recognized. -/
def checkPartition (partition : String) : Except String Unit :=
  if partition = "aws" then .ok ()
  else if partition = "aws-cn" then .ok ()
  else if partition = "aws-us-gov" then .ok ()
  else .error "partion is not recognized"

/-- Embeds `Canonicalize` from arn.go: validate IAM identities and rewrite STS
assumed-role ARNs into the underlying IAM role ARN. -/
def Canonicalize (arn : String) : Except String String :=
  match arnParse arn with
  | .error _ => .error "arn is invalid"
  | .ok parsed =>
    match checkPartition parsed.Partition with
    | .error _ => .error "arn does not have a recognized partition"
    | .ok _ =>
      let parts := strSplit parsed.Resource '/'
      let resource := parts.headD ""
      if parsed.Service = "sts" then
        if resource = "federated-user" then .ok arn
        else if resource = "assumed-role" then
          if parts.length < 3 then .error "assumed-role arn does not have a role"
          else
            let role := strJoin "/" ((parts.drop 1).dropLast)
            .ok ("arn:" ++ parsed.Partition ++ ":iam::" ++ parsed.AccountID ++ ":role/" ++ role)
        else .error "unrecognized resource for service sts"
      else if parsed.Service = "iam" then
        if resource = "role" ∨ resource = "user" ∨ resource = "root" then .ok arn
        else .error "unrecognized resource for service iam"
      else .error "not a valid service for identities"


/-! ## Go runtime errors and AWS SDK error model -/

/-- A Go runtime panic, made explicit in the embedding. -/
inductive GoPanic where
  | nilDereference
  | sliceOutOfRange
  deriving DecidableEq, Repr

/-- A Go `error` value as the resources observe it: either an
`awserr.Error` carrying a code and a message, or any other error. -/
inductive GoErr where
  | awsErr (code : String) (msg : String)
  | simpleErr (msg : String)
  | notFoundWaiterErr
  | timeoutErr
  | unexpectedStateErr (state : String)
  deriving DecidableEq, Repr

/-- Embeds `isAWSErr` from the provider: true when the error is an `awserr.Error`
whose code matches and whose message contains `message`. -/
def isAWSErr (err : GoErr) (code : String) (message : String) : Bool :=
  match err with
  | .awsErr c m => c == code && strContains m message
  | _ => false

/-- Embeds `medialive.ErrCodeNotFoundException` (the mediapackage constant has the
same value). -/
def ErrCodeNotFoundException : String := "NotFoundException"

/-! ## net/url as used by obtainStreamName

Model of Go's `net/url.Parse` restricted to the inputs that reach it here:
MediaLive destination URLs (`scheme://host[:port][/path]`) and plain
relative references.  Query and fragment splitting is omitted because such
URLs carry neither, and `net/url.Parse` fails only on strings with control
characters, which cannot occur in MediaLive destination URLs, so the model
never returns an error; the `Except` shape is kept because the Go caller
checks the error. -/

/-- The `net/url.URL` fields `obtainStreamName` reads. -/
structure URL where
  Scheme : String
  Host : String
  Path : String
  deriving DecidableEq, Repr

/-- Split a character list at the first occurrence of `"://"`. -/
def findSchemeSep : List Char → Option (List Char × List Char)
  | ':' :: '/' :: '/' :: rest => some ([], rest)
  | [] => none
  | c :: rest =>
    match findSchemeSep rest with
    | none => none
    | some (b, a) => some (c :: b, a)

/-- The path component: everything from the first `'/'` on (empty when the
authority is not followed by a slash). -/
def pathFrom : List Char → List Char
  | [] => []
  | c :: t => if c == '/' then c :: t else pathFrom t

/-- Model of `net/url.Parse` (see the section comment above). -/
def urlParse (s : String) : Except String URL :=
  match findSchemeSep s.data with
  | none => .ok ⟨"", "", s⟩
  | some (sch, rest) =>
    .ok ⟨String.mk sch, String.mk (rest.takeWhile (fun c => c ≠ '/')), String.mk (pathFrom rest)⟩


/-! ## src/aws/resource_aws_media_live_input.go

The source file bundles two revisions of the resource.  The later revision
(the one defining `flattenInputDestinations`, `obtainStreamName`,
`convertInputSecurityGroups` and the creation waiter) carries no suffix;
the earlier revision's differing functions carry a `V1` suffix. -/

/-- Embeds `medialive.InputDestination` (the fields the provider reads). -/
structure InputDestination where
  Ip : Option String
  Port : Option String
  Url : Option String
  deriving DecidableEq, Repr

/-- Embeds `medialive.InputDestinationRequest`. -/
structure InputDestinationRequest where
  StreamName : Option String
  deriving DecidableEq, Repr

/-- Embeds `obtainStreamName`: parse the destination URL and return
`resp.Path[1:len(resp.Path)]`.  Dereferencing the nil `*string` and the
slice expression on an empty path are Go panics, surfaced in `GoPanic`. -/
def obtainStreamName (streamUrl : Option String) : Except GoPanic String :=
  match streamUrl with
  | none => .error .nilDereference
  | some u =>
    match urlParse u with
    | .error _ => .ok ""
    | .ok resp =>
      match resp.Path.data with
      | [] => .error .sliceOutOfRange
      | _ :: t => .ok (String.mk t)

/-- One element of the list `flattenInputDestinations` builds: the
`map[string]interface{}` with keys "ip", "port", "url" and "stream_name". -/
structure FlatDestination where
  ip : String
  port : String
  url : String
  stream_name : String
  deriving DecidableEq, Repr

/-- Embeds `flattenInputDestinations` (later revision, the only one): note that the
source stores `destination.Ip` under the "port" key and `destination.Port`
under the "ip" key.  A panic in `obtainStreamName` aborts the whole call. -/
def flattenInputDestinations : List InputDestination → Except GoPanic (List FlatDestination)
  | [] => .ok []
  | destination :: rest =>
    match obtainStreamName destination.Url with
    | .error p => .error p
    | .ok sn =>
      match flattenInputDestinations rest with
      | .error p => .error p
      | .ok rs =>
        .ok ({ url := stringValue destination.Url
               port := stringValue destination.Ip
               ip := stringValue destination.Port
               stream_name := sn } :: rs)

/-- Embeds `convertInputSecurityGroups`: `[]interface{}` of group id strings to
`[]*string`. -/
def convertInputSecurityGroups (raw : List String) : List (Option String) :=
  raw.map (fun groupId => some groupId)

/-- One entry of the "destinations" list attribute (only "stream_name" is
user-settable; the rest are computed). -/
structure DestinationConf where
  stream_name : String
  deriving DecidableEq, Repr

/-- Embeds `expandDestinations` from the earlier input-resource revision /
`expandInputDestinations` from the later one (their bodies coincide). -/
def expandInputDestinations (destinations : List DestinationConf) : List InputDestinationRequest :=
  if destinations = [] then []
  else destinations.map (fun r => { StreamName := some r.stream_name })

/-- The aws_medialive_input configuration attributes the Create path reads. -/
structure InputConfig where
  input_type : String
  name : String
  request_id : String
  role_arn : String
  destinations : List DestinationConf
  input_security_groups : List String
  tags : List (String × String)
  deriving DecidableEq, Repr

/-- Embeds `medialive.CreateInputInput` (fields the provider writes).  Slice
fields are `Option` so that a nil slice (`none`) is distinguishable from an
assigned one. -/
structure CreateInputInput where
  InputType : Option String
  Name : Option String
  RequestId : Option String
  RoleArn : Option String
  Destinations : Option (List InputDestinationRequest)
  InputSecurityGroups : Option (List (Option String))
  Tags : List (String × String)
  deriving DecidableEq, Repr

/-- The request struct built by `resourceAwsMediaLiveInputCreate` of the
earlier revision, up to the `conn.CreateInput(input)` call.  The source's
`input_security_groups` branch builds a local `inputSecurityGroups` slice
and never stores it on the request, so the field stays nil here. -/
def buildCreateInputInputV1 (d : InputConfig) : CreateInputInput :=
  -- the SDK field is named `Type`, a Lean keyword, hence `InputType` here
  let input : CreateInputInput :=
    { InputType := some d.input_type
      Name := some d.name
      RequestId := some d.request_id
      RoleArn := some d.role_arn
      Destinations := none
      InputSecurityGroups := none
      Tags := [] }
  let input :=
    if d.destinations ≠ [] then
      { input with Destinations := some (expandInputDestinations d.destinations) }
    else input
  if d.tags ≠ [] then { input with Tags := d.tags } else input

/-- The request struct built by `resourceAwsMediaLiveInputCreate` of the
later revision, up to the `conn.CreateInput(input)` call.  `RequestId` is a
fresh `uuid` there, passed in as a parameter here; this revision sets no
`RoleArn` and assigns `convertInputSecurityGroups` to the request. -/
def buildCreateInputInputV2 (requestId : String) (d : InputConfig) : CreateInputInput :=
  let input : CreateInputInput :=
    { InputType := some d.input_type
      Name := some d.name
      RequestId := some requestId
      RoleArn := none
      Destinations := none
      InputSecurityGroups := none
      Tags := [] }
  let input :=
    if d.destinations ≠ [] then
      { input with Destinations := some (expandInputDestinations d.destinations) }
    else input
  let input :=
    if d.input_security_groups ≠ [] then
      { input with InputSecurityGroups := some (convertInputSecurityGroups d.input_security_groups) }
    else input
  if d.tags ≠ [] then { input with Tags := d.tags } else input

/-! ## src/aws/media_live_channel_structure.go (earlier revision, lines 1-736)

Only the functions the claims touch are embedded, together with every
helper they call.  `schema.Set` values are embedded as `List`s of typed
configuration records; `s.Len() > 0` becomes a match on the list and
`s.List()[0]` is the head. -/

/-- One "settings" entry of a channel output destination. -/
structure OutputDestinationSettingsConf where
  password_param : String
  stream_name : String
  url : String
  username : String
  deriving DecidableEq, Repr

/-- One entry of the channel "destinations" list attribute. -/
structure ChannelDestinationConf where
  id : String
  settings : List OutputDestinationSettingsConf
  deriving DecidableEq, Repr

/-- Embeds `medialive.OutputDestinationSettings`. -/
structure OutputDestinationSettings where
  PasswordParam : Option String
  StreamName : Option String
  Url : Option String
  Username : Option String
  deriving DecidableEq, Repr

/-- Embeds `medialive.OutputDestination`. -/
structure OutputDestination where
  Id : Option String
  Settings : List OutputDestinationSettings
  deriving DecidableEq, Repr

/-- Embeds `expandOutputDestinationSettings`: nil on an empty list, otherwise one
SDK entry per configured map. -/
def expandOutputDestinationSettings (destinationSettings : List OutputDestinationSettingsConf) :
    List OutputDestinationSettings :=
  if destinationSettings = [] then []
  else destinationSettings.map (fun r =>
    { PasswordParam := some r.password_param
      StreamName := some r.stream_name
      Url := some r.url
      Username := some r.username })

/-- Embeds `expandDestinations` (channel): nil on an empty list, otherwise one
`OutputDestination` per configured map. -/
def expandDestinations (destinations : List ChannelDestinationConf) : List OutputDestination :=
  if destinations = [] then []
  else destinations.map (fun r =>
    { Id := some r.id
      Settings := expandOutputDestinationSettings r.settings })

/-- One "caption_language_mapping" entry. -/
structure CaptionMappingConf where
  caption_channel : Int
  language_code : String
  language_description : String
  deriving DecidableEq, Repr

/-- Embeds `medialive.CaptionLanguageMapping`. -/
structure CaptionLanguageMapping where
  CaptionChannel : Option Int
  LanguageCode : Option String
  LanguageDescription : Option String
  deriving DecidableEq, Repr

/-- Embeds `expandCaptionLanguageMapping`. -/
def expandCaptionLanguageMapping (captionMappings : List CaptionMappingConf) :
    List CaptionLanguageMapping :=
  if captionMappings = [] then []
  else captionMappings.map (fun settings =>
    { CaptionChannel := some settings.caption_channel
      LanguageCode := some settings.language_code
      LanguageDescription := some settings.language_description })

/-- One "hls_basic_put_settings" entry. -/
structure HlsBasicPutConf where
  connection_retry_interval : Int
  filecache_duration : Int
  num_retries : Int
  restart_delay : Int
  deriving DecidableEq, Repr

/-- Embeds `medialive.HlsBasicPutSettings`. -/
structure HlsBasicPutSettings where
  ConnectionRetryInterval : Option Int
  FilecacheDuration : Option Int
  NumRetries : Option Int
  RestartDelay : Option Int
  deriving DecidableEq, Repr

/-- Embeds `expandHlsBasicPutSettings`: the empty set yields the zero struct. -/
def expandHlsBasicPutSettings : List HlsBasicPutConf → HlsBasicPutSettings
  | settings :: _ =>
    { ConnectionRetryInterval := some settings.connection_retry_interval
      FilecacheDuration := some settings.filecache_duration
      NumRetries := some settings.num_retries
      RestartDelay := some settings.restart_delay }
  | [] => ⟨none, none, none, none⟩

/-- One "hls_cdn_settings" entry. -/
structure HlsCdnConf where
  hls_basic_put_settings : List HlsBasicPutConf
  deriving DecidableEq, Repr

/-- Embeds `medialive.HlsCdnSettings` (the Akamai and MediaStore variants are
commented out in the source). -/
structure HlsCdnSettings where
  HlsBasicPutSettings : Option HlsBasicPutSettings
  deriving DecidableEq, Repr

/-- Embeds `expandHlsCdnSettings`: the empty set yields the zero struct. -/
def expandHlsCdnSettings : List HlsCdnConf → HlsCdnSettings
  | settings :: _ => { HlsBasicPutSettings := some (expandHlsBasicPutSettings settings.hls_basic_put_settings) }
  | [] => ⟨none⟩

/-- One "destination" entry (an output-location reference). -/
structure DestinationRefConf where
  destination_ref_id : String
  deriving DecidableEq, Repr

/-- Embeds `medialive.OutputLocationRef`. -/
structure OutputLocationRef where
  DestinationRefId : Option String
  deriving DecidableEq, Repr

/-- Embeds `expandHlsDestinationRef`: the empty set yields the zero struct. -/
def expandHlsDestinationRef : List DestinationRefConf → OutputLocationRef
  | settings :: _ => { DestinationRefId := some settings.destination_ref_id }
  | [] => ⟨none⟩

/-- Embeds `expandRtmpOutputDestination`: the empty set yields nil. -/
def expandRtmpOutputDestination : List DestinationRefConf → Option OutputLocationRef
  | settings :: _ => some { DestinationRefId := some settings.destination_ref_id }
  | [] => none

/-- One "hls_group_settings" entry (attribute names as in the schema). -/
structure HlsGroupSettingsConf where
  caption_language_setting : String
  caption_language_mapping : List CaptionMappingConf
  codec_specification : String
  client_cache : String
  hls_cdn_settings : List HlsCdnConf
  hls_id3_segment_tagging : String
  index_n_segments : Int
  input_loss_action : String
  iv_in_manifest : String
  iv_source : String
  iframe_only_playlists : String
  keep_segments : Int
  manifest_compression : String
  manifest_duration_format : String
  mode : String
  output_selection : String
  program_date_time : String
  program_date_time_period : Int
  redundant_manifest : String
  segmentation_mode : String
  segment_length : Int
  destination : List DestinationRefConf
  directory_structure : String
  segments_per_subdirectory : Int
  stream_inf_resolution : String
  timed_metadata_id3_frame : String
  timed_metadata_id3_period : Int
  timestamp_delta_milliseconds : Int
  ts_file_mode : String
  deriving DecidableEq, Repr

/-- Embeds `medialive.HlsGroupSettings` (the fields the provider writes). -/
structure HlsGroupSettings where
  CaptionLanguageSetting : Option String
  CaptionLanguageMappings : List CaptionLanguageMapping
  CodecSpecification : Option String
  ClientCache : Option String
  HlsCdnSettings : Option HlsCdnSettings
  HlsId3SegmentTagging : Option String
  IndexNSegments : Option Int
  InputLossAction : Option String
  IvInManifest : Option String
  IvSource : Option String
  IFrameOnlyPlaylists : Option String
  KeepSegments : Option Int
  ManifestCompression : Option String
  ManifestDurationFormat : Option String
  Mode : Option String
  OutputSelection : Option String
  ProgramDateTime : Option String
  ProgramDateTimePeriod : Option Int
  RedundantManifest : Option String
  SegmentationMode : Option String
  SegmentLength : Option Int
  Destination : Option OutputLocationRef
  DirectoryStructure : Option String
  SegmentsPerSubdirectory : Option Int
  StreamInfResolution : Option String
  TimedMetadataId3Frame : Option String
  TimedMetadataId3Period : Option Int
  TimestampDeltaMilliseconds : Option Int
  TsFileMode : Option String
  deriving DecidableEq, Repr

/-- The zero `medialive.HlsGroupSettings{}` struct. -/
def emptyHlsGroupSettings : HlsGroupSettings :=
  { CaptionLanguageSetting := none, CaptionLanguageMappings := [], CodecSpecification := none
    ClientCache := none, HlsCdnSettings := none, HlsId3SegmentTagging := none
    IndexNSegments := none, InputLossAction := none, IvInManifest := none, IvSource := none
    IFrameOnlyPlaylists := none, KeepSegments := none, ManifestCompression := none
    ManifestDurationFormat := none, Mode := none, OutputSelection := none
    ProgramDateTime := none, ProgramDateTimePeriod := none, RedundantManifest := none
    SegmentationMode := none, SegmentLength := none, Destination := none
    DirectoryStructure := none, SegmentsPerSubdirectory := none, StreamInfResolution := none
    TimedMetadataId3Frame := none, TimedMetadataId3Period := none
    TimestampDeltaMilliseconds := none, TsFileMode := none }

/-- Embeds `expandHlsGroupSettings`: the empty set yields the zero struct, a
non-empty set fills every field from the first entry. -/
def expandHlsGroupSettings : List HlsGroupSettingsConf → HlsGroupSettings
  | settings :: _ =>
    { CaptionLanguageSetting := some settings.caption_language_setting
      CaptionLanguageMappings := expandCaptionLanguageMapping settings.caption_language_mapping
      CodecSpecification := some settings.codec_specification
      ClientCache := some settings.client_cache
      HlsCdnSettings := some (expandHlsCdnSettings settings.hls_cdn_settings)
      HlsId3SegmentTagging := some settings.hls_id3_segment_tagging
      IndexNSegments := some settings.index_n_segments
      InputLossAction := some settings.input_loss_action
      IvInManifest := some settings.iv_in_manifest
      IvSource := some settings.iv_source
      IFrameOnlyPlaylists := some settings.iframe_only_playlists
      KeepSegments := some settings.keep_segments
      ManifestCompression := some settings.manifest_compression
      ManifestDurationFormat := some settings.manifest_duration_format
      Mode := some settings.mode
      OutputSelection := some settings.output_selection
      ProgramDateTime := some settings.program_date_time
      ProgramDateTimePeriod := some settings.program_date_time_period
      RedundantManifest := some settings.redundant_manifest
      SegmentationMode := some settings.segmentation_mode
      SegmentLength := some settings.segment_length
      Destination := some (expandHlsDestinationRef settings.destination)
      DirectoryStructure := some settings.directory_structure
      SegmentsPerSubdirectory := some settings.segments_per_subdirectory
      StreamInfResolution := some settings.stream_inf_resolution
      TimedMetadataId3Frame := some settings.timed_metadata_id3_frame
      TimedMetadataId3Period := some settings.timed_metadata_id3_period
      TimestampDeltaMilliseconds := some settings.timestamp_delta_milliseconds
      TsFileMode := some settings.ts_file_mode }
  | [] => emptyHlsGroupSettings

/-- One "rtmp_group_settings" entry. -/
structure RtmpGroupSettingsConf where
  authentication_scheme : String
  cache_full_behavior : String
  cache_length : Int
  caption_data : String
  input_loss_action : String
  restart_delay : Int
  deriving DecidableEq, Repr

/-- Embeds `medialive.RtmpGroupSettings`. -/
structure RtmpGroupSettings where
  AuthenticationScheme : Option String
  CacheFullBehavior : Option String
  CacheLength : Option Int
  CaptionData : Option String
  InputLossAction : Option String
  RestartDelay : Option Int
  deriving DecidableEq, Repr

/-- The zero `medialive.RtmpGroupSettings{}` struct. -/
def emptyRtmpGroupSettings : RtmpGroupSettings := ⟨none, none, none, none, none, none⟩

/-- Embeds `expandRtmpGroupSettings`: the empty set yields the zero struct. -/
def expandRtmpGroupSettings : List RtmpGroupSettingsConf → RtmpGroupSettings
  | settings :: _ =>
    { AuthenticationScheme := some settings.authentication_scheme
      CacheFullBehavior := some settings.cache_full_behavior
      CacheLength := some settings.cache_length
      CaptionData := some settings.caption_data
      InputLossAction := some settings.input_loss_action
      RestartDelay := some settings.restart_delay }
  | [] => emptyRtmpGroupSettings

/-- One "output_group_settings" entry. -/
structure OutputGroupSettingsConf where
  hls_group_settings : List HlsGroupSettingsConf
  rtmp_group_settings : List RtmpGroupSettingsConf
  deriving DecidableEq, Repr

/-- Embeds `medialive.OutputGroupSettings` (the fields the provider writes). -/
structure OutputGroupSettings where
  HlsGroupSettings : Option HlsGroupSettings
  RtmpGroupSettings : Option RtmpGroupSettings
  deriving DecidableEq, Repr

/-- Embeds `expandOutputGroupSettings`: expand both group settings and attach each
one only when its marker field (`Mode` for HLS, `AuthenticationScheme` for
RTMP) is non-nil, so no empty sub-struct is ever attached. -/
def expandOutputGroupSettings : List OutputGroupSettingsConf → OutputGroupSettings
  | settings :: _ =>
    let hlsGroupSettings := expandHlsGroupSettings settings.hls_group_settings
    let rtmpGroupSettings := expandRtmpGroupSettings settings.rtmp_group_settings
    { HlsGroupSettings := if hlsGroupSettings.Mode.isSome then some hlsGroupSettings else none
      RtmpGroupSettings := if rtmpGroupSettings.AuthenticationScheme.isSome then some rtmpGroupSettings else none }
  | [] => ⟨none, none⟩

/-- One "audio_only_hls_settings" entry. -/
structure AudioOnlyConf where
  audio_group_id : String
  audio_track_type : String
  segment_type : String
  deriving DecidableEq, Repr

/-- Embeds `medialive.AudioOnlyHlsSettings`. -/
structure AudioOnlyHlsSettings where
  AudioGroupId : Option String
  AudioTrackType : Option String
  SegmentType : Option String
  deriving DecidableEq, Repr

/-- Embeds `expandAudioOnlyHlsSettings`: the empty set yields nil. -/
def expandAudioOnlyHlsSettings : List AudioOnlyConf → Option AudioOnlyHlsSettings
  | settings :: _ =>
    some { AudioGroupId := some settings.audio_group_id
           AudioTrackType := some settings.audio_track_type
           SegmentType := some settings.segment_type }
  | [] => none

/-- One "m3u8_settings" entry. -/
structure M3u8Conf where
  audio_frames_per_pes : Int
  audio_pids : String
  nielsen_id3_behavior : String
  pat_interval : Int
  pcr_control : String
  pmt_pid : String
  program_num : Int
  scte_35_behavior : String
  scte_35_pid : String
  timed_metadata_behavior : String
  timed_metadata_pid : String
  video_pid : String
  deriving DecidableEq, Repr

/-- Embeds `medialive.M3u8Settings`. -/
structure M3u8Settings where
  AudioFramesPerPes : Option Int
  AudioPids : Option String
  NielsenId3Behavior : Option String
  PatInterval : Option Int
  PcrControl : Option String
  PmtPid : Option String
  ProgramNum : Option Int
  Scte35Behavior : Option String
  Scte35Pid : Option String
  TimedMetadataBehavior : Option String
  TimedMetadataPid : Option String
  VideoPid : Option String
  deriving DecidableEq, Repr

/-- Embeds `expandM3u8settings`: the empty set yields the zero struct. -/
def expandM3u8settings : List M3u8Conf → M3u8Settings
  | settings :: _ =>
    { AudioFramesPerPes := some settings.audio_frames_per_pes
      AudioPids := some settings.audio_pids
      NielsenId3Behavior := some settings.nielsen_id3_behavior
      PatInterval := some settings.pat_interval
      PcrControl := some settings.pcr_control
      PmtPid := some settings.pmt_pid
      ProgramNum := some settings.program_num
      Scte35Behavior := some settings.scte_35_behavior
      Scte35Pid := some settings.scte_35_pid
      TimedMetadataBehavior := some settings.timed_metadata_behavior
      TimedMetadataPid := some settings.timed_metadata_pid
      VideoPid := some settings.video_pid }
  | [] => ⟨none, none, none, none, none, none, none, none, none, none, none, none⟩

/-- One "standard_hls_settings" entry. -/
structure StandardHlsConf where
  audio_rendition_sets : String
  m3u8_settings : List M3u8Conf
  deriving DecidableEq, Repr

/-- Embeds `medialive.StandardHlsSettings`. -/
structure StandardHlsSettings where
  AudioRenditionSets : Option String
  M3u8Settings : Option M3u8Settings
  deriving DecidableEq, Repr

/-- Embeds `expandStandardHlsSettings`: the empty set yields nil. -/
def expandStandardHlsSettings : List StandardHlsConf → Option StandardHlsSettings
  | settings :: _ =>
    some { AudioRenditionSets := some settings.audio_rendition_sets
           M3u8Settings := some (expandM3u8settings settings.m3u8_settings) }
  | [] => none

/-- One "hls_settings" entry. -/
structure HlsSettingsConf where
  standard_hls_settings : List StandardHlsConf
  audio_only_hls_settings : List AudioOnlyConf
  deriving DecidableEq, Repr

/-- Embeds `medialive.HlsSettings`. -/
structure HlsSettings where
  StandardHlsSettings : Option StandardHlsSettings
  AudioOnlyHlsSettings : Option AudioOnlyHlsSettings
  deriving DecidableEq, Repr

/-- Embeds `expandHlsSettings`: the empty set yields the zero struct. -/
def expandHlsSettings : List HlsSettingsConf → HlsSettings
  | settings :: _ =>
    { StandardHlsSettings := expandStandardHlsSettings settings.standard_hls_settings
      AudioOnlyHlsSettings := expandAudioOnlyHlsSettings settings.audio_only_hls_settings }
  | [] => ⟨none, none⟩

/-- One "hls_output_settings" entry. -/
structure HlsOutputSettingsConf where
  hls_settings : List HlsSettingsConf
  name_modifier : String
  h_265_packaging_type : String
  segment_modifier : String
  deriving DecidableEq, Repr

/-- Embeds `medialive.HlsOutputSettings`. -/
structure HlsOutputSettings where
  HlsSettings : Option HlsSettings
  NameModifier : Option String
  H265PackagingType : Option String
  SegmentModifier : Option String
  deriving DecidableEq, Repr

/-- The zero `medialive.HlsOutputSettings{}` struct. -/
def emptyHlsOutputSettings : HlsOutputSettings := ⟨none, none, none, none⟩

/-- Embeds `expandHlsOutputSettings`: the empty set yields the zero struct. -/
def expandHlsOutputSettings : List HlsOutputSettingsConf → HlsOutputSettings
  | settings :: _ =>
    { HlsSettings := some (expandHlsSettings settings.hls_settings)
      NameModifier := some settings.name_modifier
      H265PackagingType := some settings.h_265_packaging_type
      SegmentModifier := some settings.segment_modifier }
  | [] => emptyHlsOutputSettings

/-- One "rtmp_output_settings" entry. -/
structure RtmpOutputSettingsConf where
  certificate_mode : String
  connection_retry_interval : Int
  num_retries : Int
  destination : List DestinationRefConf
  deriving DecidableEq, Repr

/-- Embeds `medialive.RtmpOutputSettings`. -/
structure RtmpOutputSettings where
  CertificateMode : Option String
  ConnectionRetryInterval : Option Int
  NumRetries : Option Int
  Destination : Option OutputLocationRef
  deriving DecidableEq, Repr

/-- The zero `medialive.RtmpOutputSettings{}` struct. -/
def emptyRtmpOutputSettings : RtmpOutputSettings := ⟨none, none, none, none⟩

/-- Embeds `expandRtmpOutputSettings`: the empty set yields the zero struct. -/
def expandRtmpOutputSettings : List RtmpOutputSettingsConf → RtmpOutputSettings
  | settings :: _ =>
    { CertificateMode := some settings.certificate_mode
      ConnectionRetryInterval := some settings.connection_retry_interval
      NumRetries := some settings.num_retries
      Destination := expandRtmpOutputDestination settings.destination }
  | [] => emptyRtmpOutputSettings

/-- One "output_settings" entry. -/
structure OutputSettingsConf where
  hls_output_settings : List HlsOutputSettingsConf
  rtmp_output_settings : List RtmpOutputSettingsConf
  deriving DecidableEq, Repr

/-- Embeds `medialive.OutputSettings` (the fields the provider writes). -/
structure OutputSettings where
  HlsOutputSettings : Option HlsOutputSettings
  RtmpOutputSettings : Option RtmpOutputSettings
  deriving DecidableEq, Repr

/-- Embeds `expandOutputSettings`: expand both output settings and attach each
one only when it differs from the zero struct (the source compares the
dereferenced struct against the zero value, which for these all-pointer
structs holds exactly when some field is non-nil). -/
def expandOutputSettings : List OutputSettingsConf → OutputSettings
  | settings :: _ =>
    let hlsOutputSettings := expandHlsOutputSettings settings.hls_output_settings
    let rtmpOutputSettings := expandRtmpOutputSettings settings.rtmp_output_settings
    { HlsOutputSettings := if hlsOutputSettings ≠ emptyHlsOutputSettings then some hlsOutputSettings else none
      RtmpOutputSettings := if rtmpOutputSettings ≠ emptyRtmpOutputSettings then some rtmpOutputSettings else none }
  | [] => ⟨none, none⟩

/-! ## expandH264Settings, both revisions

The structure file bundles two revisions of `expandH264Settings`; the
earlier one (lines 598-641) guards the framerate numerator/denominator
behind `framerate_control == "SPECIFIED"`, the later one (lines 1175-1213)
copies them unconditionally.  The Go `float64` attribute `gop_size` is
carried opaquely (no arithmetic is performed on it) and embedded as `Rat`;
the schema key "syntax" is embedded under the field name `stx`. -/

/-- One "h264_settings" entry (attribute names as in the schema, except
`stx` for the "syntax" key). -/
structure H264Conf where
  adaptive_quantization : String
  afd_signaling : String
  bitrate : Int
  buf_fill_pct : Int
  buf_size : Int
  color_metadata : String
  entropy_encoding : String
  flicker_aq : String
  force_field_pictures : String
  gop_b_reference : String
  gop_closed_cadence : Int
  gop_num_b_frames : Int
  gop_size : Rat
  gop_size_units : String
  level : String
  look_ahead_rate_control : String
  num_ref_frames : Int
  par_control : String
  quality_level : String
  profile : String
  rate_control_mode : String
  stx : String
  scene_change_detect : String
  spatial_aq : String
  temporal_aq : String
  timecode_insertion : String
  framerate_control : String
  framerate_numerator : Int
  framerate_denominator : Int
  deriving DecidableEq, Repr

/-- Embeds `medialive.H264Settings` (the fields the provider writes; `Stx` stands
for the SDK field `Syntax`). -/
structure H264Settings where
  AdaptiveQuantization : Option String
  AfdSignaling : Option String
  Bitrate : Option Int
  BufFillPct : Option Int
  BufSize : Option Int
  ColorMetadata : Option String
  EntropyEncoding : Option String
  FlickerAq : Option String
  ForceFieldPictures : Option String
  GopBReference : Option String
  GopClosedCadence : Option Int
  GopNumBFrames : Option Int
  GopSize : Option Rat
  GopSizeUnits : Option String
  Level : Option String
  LookAheadRateControl : Option String
  NumRefFrames : Option Int
  ParControl : Option String
  QualityLevel : Option String
  Profile : Option String
  RateControlMode : Option String
  Stx : Option String
  SceneChangeDetect : Option String
  SpatialAq : Option String
  TemporalAq : Option String
  TimecodeInsertion : Option String
  FramerateControl : Option String
  FramerateNumerator : Option Int
  FramerateDenominator : Option Int
  deriving DecidableEq, Repr

/-- The zero `medialive.H264Settings{}` struct. -/
def emptyH264Settings : H264Settings :=
  { AdaptiveQuantization := none, AfdSignaling := none, Bitrate := none, BufFillPct := none
    BufSize := none, ColorMetadata := none, EntropyEncoding := none, FlickerAq := none
    ForceFieldPictures := none, GopBReference := none, GopClosedCadence := none
    GopNumBFrames := none, GopSize := none, GopSizeUnits := none, Level := none
    LookAheadRateControl := none, NumRefFrames := none, ParControl := none
    QualityLevel := none, Profile := none, RateControlMode := none, Stx := none
    SceneChangeDetect := none, SpatialAq := none, TemporalAq := none
    TimecodeInsertion := none, FramerateControl := none, FramerateNumerator := none
    FramerateDenominator := none }

/-- Embeds `expandH264Settings`, earlier revision (lines 598-641): the framerate
numerator and denominator are copied only under
`framerate_control == "SPECIFIED"`. -/
def expandH264Settings : List H264Conf → H264Settings
  | rawSettings :: _ =>
    { AdaptiveQuantization := some rawSettings.adaptive_quantization
      AfdSignaling := some rawSettings.afd_signaling
      Bitrate := some rawSettings.bitrate
      BufFillPct := some rawSettings.buf_fill_pct
      BufSize := some rawSettings.buf_size
      ColorMetadata := some rawSettings.color_metadata
      EntropyEncoding := some rawSettings.entropy_encoding
      FlickerAq := some rawSettings.flicker_aq
      ForceFieldPictures := some rawSettings.force_field_pictures
      GopBReference := some rawSettings.gop_b_reference
      GopClosedCadence := some rawSettings.gop_closed_cadence
      GopNumBFrames := some rawSettings.gop_num_b_frames
      GopSize := some rawSettings.gop_size
      GopSizeUnits := some rawSettings.gop_size_units
      Level := some rawSettings.level
      LookAheadRateControl := some rawSettings.look_ahead_rate_control
      NumRefFrames := some rawSettings.num_ref_frames
      ParControl := some rawSettings.par_control
      QualityLevel := some rawSettings.quality_level
      Profile := some rawSettings.profile
      RateControlMode := some rawSettings.rate_control_mode
      Stx := some rawSettings.stx
      SceneChangeDetect := some rawSettings.scene_change_detect
      SpatialAq := some rawSettings.spatial_aq
      TemporalAq := some rawSettings.temporal_aq
      TimecodeInsertion := some rawSettings.timecode_insertion
      FramerateControl := some rawSettings.framerate_control
      FramerateNumerator :=
        if rawSettings.framerate_control = "SPECIFIED" then some rawSettings.framerate_numerator else none
      FramerateDenominator :=
        if rawSettings.framerate_control = "SPECIFIED" then some rawSettings.framerate_denominator else none }
  | [] => emptyH264Settings

/-- Embeds `expandH264Settings`, later revision (lines 1175-1213): every field,
including the framerate numerator and denominator, is copied
unconditionally. -/
def expandH264SettingsV2 : List H264Conf → H264Settings
  | rawSettings :: _ =>
    { AdaptiveQuantization := some rawSettings.adaptive_quantization
      AfdSignaling := some rawSettings.afd_signaling
      Bitrate := some rawSettings.bitrate
      BufFillPct := some rawSettings.buf_fill_pct
      BufSize := some rawSettings.buf_size
      ColorMetadata := some rawSettings.color_metadata
      EntropyEncoding := some rawSettings.entropy_encoding
      FlickerAq := some rawSettings.flicker_aq
      ForceFieldPictures := some rawSettings.force_field_pictures
      FramerateControl := some rawSettings.framerate_control
      FramerateDenominator := some rawSettings.framerate_denominator
      FramerateNumerator := some rawSettings.framerate_numerator
      GopBReference := some rawSettings.gop_b_reference
      GopClosedCadence := some rawSettings.gop_closed_cadence
      GopNumBFrames := some rawSettings.gop_num_b_frames
      GopSize := some rawSettings.gop_size
      GopSizeUnits := some rawSettings.gop_size_units
      Level := some rawSettings.level
      LookAheadRateControl := some rawSettings.look_ahead_rate_control
      NumRefFrames := some rawSettings.num_ref_frames
      ParControl := some rawSettings.par_control
      QualityLevel := some rawSettings.quality_level
      Profile := some rawSettings.profile
      RateControlMode := some rawSettings.rate_control_mode
      Stx := some rawSettings.stx
      SceneChangeDetect := some rawSettings.scene_change_detect
      SpatialAq := some rawSettings.spatial_aq
      TemporalAq := some rawSettings.temporal_aq
      TimecodeInsertion := some rawSettings.timecode_insertion }
  | [] => emptyH264Settings

/-! ## helper/resource.StateChangeConf.WaitForState

The Terraform plugin SDK waiter, embedded over an explicit list of refresh
outcomes (one entry per poll; running out of entries is the timeout).  The
accumulator handling, the order of the nil-result / target / pending
checks, and the defaulting of `NotFoundChecks` (20) and
`ContinuousTargetOccurence` (1) follow helper/resource/state.go. -/

/-- The `StateChangeConf` fields that determine classification (the timing
fields are subsumed by the finite poll list). -/
structure StateChangeConf where
  Pending : List String
  Target : List String
  NotFoundChecks : Nat
  ContinuousTargetOccurence : Nat
  deriving DecidableEq, Repr

/-- One outcome of a `Refresh` call: a polled result (with `present` false
when the returned interface value was nil) or an error. -/
inductive RefreshResult where
  | polled (present : Bool) (state : String)
  | failed (e : GoErr)
  deriving DecidableEq, Repr

/-- The `WaitForState` polling loop over the remaining refresh outcomes,
with the not-found and consecutive-target-occurrence counters explicit. -/
def waitLoop (pending target : List String) (nfc cto : Nat) :
    Nat → Nat → List RefreshResult → Except GoErr String
  | _, _, [] => .error .timeoutErr
  | notfoundTick, targetOccurence, r :: rest =>
    match r with
    | .failed e => .error e
    | .polled present state =>
      if present then
        if target.contains state ∧ cto = targetOccurence + 1 then .ok state
        else
          let t1 := if target.contains state then targetOccurence + 1 else targetOccurence
          let t2 := if pending.contains state then 0 else t1
          if ¬ target.contains state ∧ ¬ pending.contains state ∧ pending ≠ [] then
            .error (.unexpectedStateErr state)
          else waitLoop pending target nfc cto 0 t2 rest
      else
        if target = [] then
          if cto = targetOccurence + 1 then .ok state
          else waitLoop pending target nfc cto notfoundTick (targetOccurence + 1) rest
        else if nfc < notfoundTick + 1 then .error .notFoundWaiterErr
        else waitLoop pending target nfc cto (notfoundTick + 1) targetOccurence rest

/-- Embeds `StateChangeConf.WaitForState`, returning the state of the refresh
result it stabilised on. -/
def waitForState (conf : StateChangeConf) (polls : List RefreshResult) : Except GoErr String :=
  let nfc := if conf.NotFoundChecks = 0 then 20 else conf.NotFoundChecks
  let cto := if conf.ContinuousTargetOccurence = 0 then 1 else conf.ContinuousTargetOccurence
  waitLoop conf.Pending conf.Target nfc cto 0 0 polls

/-! ## Waiter configurations of the four resources -/

/-- The `StateChangeConf` of `waitForMediaLiveInputDeletion` in the earlier
input-resource revision (lines 231-253): DELETED appears in the pending
list as well as in the target list. -/
def inputDeletionStateConfV1 : StateChangeConf :=
  { Pending := ["DETACHED", "ATTACHED", "DELETING", "DELETED"]
    Target := ["DELETED"]
    NotFoundChecks := 1
    ContinuousTargetOccurence := 0 }

/-- The `StateChangeConf` of `waitForMediaLiveInputDeletion` in the later
input-resource revision (lines 540-561). -/
def inputDeletionStateConf : StateChangeConf :=
  { Pending := ["DETACHED", "ATTACHED", "DELETING"]
    Target := ["DELETED"]
    NotFoundChecks := 1
    ContinuousTargetOccurence := 0 }

/-- The `createStateConf` of `resourceAwsMediaLiveInputCreate` (later
revision). -/
def inputCreateStateConf : StateChangeConf :=
  { Pending := ["CREATING"]
    Target := ["DETACHED", "ATTACHED"]
    NotFoundChecks := 0
    ContinuousTargetOccurence := 5 }

/-- The `StateChangeConf` of `waitForMediaLiveChannelDeletion`. -/
def channelDeletionStateConf : StateChangeConf :=
  { Pending := ["DELETING"]
    Target := ["DELETED"]
    NotFoundChecks := 1
    ContinuousTargetOccurence := 0 }

/-- The `createStateConf` of `resourceAwsMediaLiveChannelCreate`. -/
def channelCreateStateConf : StateChangeConf :=
  { Pending := ["CREATING"]
    Target := ["IDLE"]
    NotFoundChecks := 0
    ContinuousTargetOccurence := 5 }

/-! ## DescribeInput / DescribeChannel responses and refresh functions -/

/-- Embeds `medialive.DescribeInputOutput` (the fields the provider reads;
`InputType` stands for the SDK field `Type`). -/
structure DescribeInputOutput where
  Arn : Option String
  InputType : Option String
  Name : Option String
  InputClass : Option String
  State : Option String
  Destinations : List InputDestination
  Tags : List (String × String)
  deriving DecidableEq, Repr

/-- Embeds `medialive.DescribeChannelOutput` (the fields the provider reads). -/
structure DescribeChannelOutput where
  Arn : Option String
  Name : Option String
  RoleArn : Option String
  State : Option String
  Tags : List (String × String)
  deriving DecidableEq, Repr

/-- Embeds `mediaLiveInputRefreshFunc`: NotFoundException is turned into a nil
result in state DELETED (the source's `input == nil` branch returns the
same triple), any other error is wrapped into a plain error. -/
def mediaLiveInputRefreshFunc (res : Except GoErr DescribeInputOutput) : RefreshResult :=
  match res with
  | .error e =>
    if isAWSErr e ErrCodeNotFoundException "" then .polled false "DELETED"
    else .failed (.simpleErr "error reading MediaLive Input")
  | .ok input => .polled true (stringValue input.State)

/-- Embeds `mediaLiveChannelRefreshFunc`: same shape as the input refresh. -/
def mediaLiveChannelRefreshFunc (res : Except GoErr DescribeChannelOutput) : RefreshResult :=
  match res with
  | .error e =>
    if isAWSErr e ErrCodeNotFoundException "" then .polled false "DELETED"
    else .failed (.simpleErr "error reading MediaLive Channel")
  | .ok channel => .polled true (stringValue channel.State)

/-- The refresh closure of the input creation waiter: errors (including
NotFoundException) abort, otherwise the described state is polled. -/
def inputCreateRefresh (res : Except GoErr DescribeInputOutput) : RefreshResult :=
  match res with
  | .error e => .failed e
  | .ok resp => .polled true (stringValue resp.State)

/-- The refresh closure of the channel creation waiter. -/
def channelCreateRefresh (res : Except GoErr DescribeChannelOutput) : RefreshResult :=
  match res with
  | .error e => .failed e
  | .ok resp => .polled true (stringValue resp.State)

/-- The tail of `waitForMediaLiveInputDeletion` after `WaitForState`
returns: a NotFoundException error is success. -/
def waitForMediaLiveInputDeletionFrom (ws : Except GoErr String) : Except GoErr Unit :=
  match ws with
  | .ok _ => .ok ()
  | .error e => if isAWSErr e ErrCodeNotFoundException "" then .ok () else .error e

/-- Embeds `waitForMediaLiveInputDeletion` (later revision), over the list of
DescribeInput outcomes the waiter will see. -/
def waitForMediaLiveInputDeletion (describes : List (Except GoErr DescribeInputOutput)) :
    Except GoErr Unit :=
  waitForMediaLiveInputDeletionFrom
    (waitForState inputDeletionStateConf (describes.map mediaLiveInputRefreshFunc))

/-- The tail of `waitForMediaLiveChannelDeletion` after `WaitForState`
returns. -/
def waitForMediaLiveChannelDeletionFrom (ws : Except GoErr String) : Except GoErr Unit :=
  match ws with
  | .ok _ => .ok ()
  | .error e => if isAWSErr e ErrCodeNotFoundException "" then .ok () else .error e

/-- Embeds `waitForMediaLiveChannelDeletion`, over the list of DescribeChannel
outcomes the waiter will see. -/
def waitForMediaLiveChannelDeletion (describes : List (Except GoErr DescribeChannelOutput)) :
    Except GoErr Unit :=
  waitForMediaLiveChannelDeletionFrom
    (waitForState channelDeletionStateConf (describes.map mediaLiveChannelRefreshFunc))

/-! ## CRUD operations as functions of the AWS call outcomes

Each operation takes the outcomes of the AWS calls it performs (in call
order) and returns what Terraform observes: success together with the list
of schema writes performed, removal from state, an error, or a panic. -/

/-- A `d.Set(key, value)` performed by a Read. -/
inductive AttrVal where
  | str (s : String)
  | flatDests (l : List FlatDestination)
  | tagMap (l : List (String × String))
  deriving DecidableEq, Repr

/-- The outcome of one resource operation. -/
inductive OpOutcome where
  | ok (writes : List (String × AttrVal))
  | removedFromState
  | failed (msg : String)
  | panicked (p : GoPanic)
  deriving DecidableEq, Repr

/-- Did the operation return nil to Terraform (plain success or
remove-from-state)? -/
def OpOutcome.isSuccess : OpOutcome → Bool
  | .ok _ => true
  | .removedFromState => true
  | _ => false

/-- Embeds `resourceAwsMediaLiveInputRead`, earlier revision: stores only "arn"
and "tags". -/
def resourceAwsMediaLiveInputReadV1 (resp : Except GoErr DescribeInputOutput) : OpOutcome :=
  match resp with
  | .error e =>
    if isAWSErr e ErrCodeNotFoundException "" then .removedFromState
    else .failed "Error describing MediaLive Input"
  | .ok r => .ok [("arn", .str (stringValue r.Arn)), ("tags", .tagMap r.Tags)]

/-- Embeds `resourceAwsMediaLiveInputRead`, later revision: stores the flattened
destinations and the scalar attributes. -/
def resourceAwsMediaLiveInputRead (resp : Except GoErr DescribeInputOutput) : OpOutcome :=
  match resp with
  | .error e =>
    if isAWSErr e ErrCodeNotFoundException "" then .removedFromState
    else .failed "Error describing MediaLive Input"
  | .ok r =>
    match flattenInputDestinations r.Destinations with
    | .error p => .panicked p
    | .ok flat =>
      .ok [("destinations", .flatDests flat),
           ("arn", .str (stringValue r.Arn)),
           ("type", .str (stringValue r.InputType)),
           ("name", .str (stringValue r.Name)),
           ("input_class", .str (stringValue r.InputClass)),
           ("tags", .tagMap r.Tags)]

/-- Embeds `resourceAwsMediaLiveChannelRead`. -/
def resourceAwsMediaLiveChannelRead (resp : Except GoErr DescribeChannelOutput) : OpOutcome :=
  match resp with
  | .error e =>
    if isAWSErr e ErrCodeNotFoundException "" then .removedFromState
    else .failed "Error describing MediaLive Channel"
  | .ok r =>
    .ok [("arn", .str (stringValue r.Arn)),
         ("name", .str (stringValue r.Name)),
         ("role_arn", .str (stringValue r.RoleArn)),
         ("tags", .tagMap r.Tags)]

/-- Embeds `resourceAwsMediaLiveInputCreate`, earlier revision: CreateInput,
SetId, then straight to Read; no waiter runs. -/
def resourceAwsMediaLiveInputCreateV1 (createRes : Except GoErr String)
    (readRes : Except GoErr DescribeInputOutput) : OpOutcome :=
  match createRes with
  | .error _ => .failed "Error creating MediaLive Input"
  | .ok _ => resourceAwsMediaLiveInputReadV1 readRes

/-- Embeds `resourceAwsMediaLiveInputCreate`, later revision: CreateInput, SetId,
the creation waiter, then Read. -/
def resourceAwsMediaLiveInputCreate (createRes : Except GoErr String)
    (describes : List (Except GoErr DescribeInputOutput))
    (readRes : Except GoErr DescribeInputOutput) : OpOutcome :=
  match createRes with
  | .error _ => .failed "Error creating MediaLive Input"
  | .ok _ =>
    match waitForState inputCreateStateConf (describes.map inputCreateRefresh) with
    | .error _ => .failed "Error waiting MediaLive Input to be created"
    | .ok _ => resourceAwsMediaLiveInputRead readRes

/-- Embeds `resourceAwsMediaLiveChannelCreate`: CreateChannel, SetId, the creation
waiter, then Read. -/
def resourceAwsMediaLiveChannelCreate (createRes : Except GoErr String)
    (describes : List (Except GoErr DescribeChannelOutput))
    (readRes : Except GoErr DescribeChannelOutput) : OpOutcome :=
  match createRes with
  | .error _ => .failed "Error creating MediaLive Channel"
  | .ok _ =>
    match waitForState channelCreateStateConf (describes.map channelCreateRefresh) with
    | .error _ => .failed "Error waiting MediaLive Channel to be created"
    | .ok _ => resourceAwsMediaLiveChannelRead readRes

/-- Embeds `resourceAwsMediaLiveInputDelete` (identical in both revisions up to
the waiter configuration; this is the later one): a NotFoundException from
DeleteInput is success, otherwise the deletion waiter decides. -/
def resourceAwsMediaLiveInputDelete (deleteRes : Except GoErr Unit)
    (describes : List (Except GoErr DescribeInputOutput)) : OpOutcome :=
  match deleteRes with
  | .error e =>
    if isAWSErr e ErrCodeNotFoundException "" then .ok []
    else .failed "Error deleting MediaLive Input"
  | .ok _ =>
    match waitForMediaLiveInputDeletion describes with
    | .error _ => .failed "Error waiting for deleting MediaLive Input"
    | .ok _ => .ok []

/-- Embeds `resourceAwsMediaLiveChannelDelete`. -/
def resourceAwsMediaLiveChannelDelete (deleteRes : Except GoErr Unit)
    (describes : List (Except GoErr DescribeChannelOutput)) : OpOutcome :=
  match deleteRes with
  | .error e =>
    if isAWSErr e ErrCodeNotFoundException "" then .ok []
    else .failed "Error deleting MediaLive Channel"
  | .ok _ =>
    match waitForMediaLiveChannelDeletion describes with
    | .error _ => .failed "Error waiting for deleting MediaLive Channel"
    | .ok _ => .ok []

/-- Embeds `resourceAwsMediaPackageOriginEndpointDelete` (src/unnamed/part_002):
no waiter; a NotFoundException from DeleteOriginEndpoint is success. -/
def resourceAwsMediaPackageOriginEndpointDelete (deleteRes : Except GoErr Unit) : OpOutcome :=
  match deleteRes with
  | .error e =>
    if isAWSErr e ErrCodeNotFoundException "" then .ok []
    else .failed "Error deleting MediaPackage Origin Endpoint"
  | .ok _ => .ok []

/-! ## Concrete sample values used by the witnesses -/

/-- A sample input configuration with one security group. -/
def inputConfigEx : InputConfig :=
  { input_type := "RTMP_PUSH", name := "in1", request_id := "req-1"
    role_arn := "arn:aws:iam::123456789012:role/medialive"
    destinations := [{ stream_name := "app/stream" }]
    input_security_groups := ["sg-123456"], tags := [] }

/-- A sample destination as DescribeInput returns it. -/
def inputDestinationEx : InputDestination :=
  { Ip := some "10.0.0.1", Port := some "5000", Url := some "rtmp://10.0.0.1:1935/live/st1" }

/-- A sample DescribeInput response in state CREATING. -/
def descInputCreating : DescribeInputOutput :=
  { Arn := some "arn:ml:in", InputType := some "RTMP_PUSH", Name := some "in1"
    InputClass := none, State := some "CREATING", Destinations := [], Tags := [] }

/-- A sample DescribeInput response in state ATTACHED. -/
def descInputAttached : DescribeInputOutput :=
  { Arn := some "arn:ml:in", InputType := some "RTMP_PUSH", Name := some "in1"
    InputClass := some "STANDARD", State := some "ATTACHED", Destinations := [], Tags := [] }

/-- A sample DescribeChannel response in state IDLE. -/
def descChannelIdle : DescribeChannelOutput :=
  { Arn := some "arn:ml:ch", Name := some "ch1", RoleArn := some "arn:aws:iam::1:role/r"
    State := some "IDLE", Tags := [] }

/-- A sample DescribeChannel response in state DELETING. -/
def descChannelDeleting : DescribeChannelOutput :=
  { Arn := some "arn:ml:ch", Name := some "ch1", RoleArn := some "arn:aws:iam::1:role/r"
    State := some "DELETING", Tags := [] }

/-- A sample DescribeChannel response in state DELETED. -/
def descChannelDeleted : DescribeChannelOutput :=
  { Arn := some "arn:ml:ch", Name := some "ch1", RoleArn := some "arn:aws:iam::1:role/r"
    State := some "DELETED", Tags := [] }

/-- A sample DescribeInput response in state DELETED. -/
def descInputDeleted : DescribeInputOutput :=
  { Arn := some "arn:ml:in", InputType := some "RTMP_PUSH", Name := some "in1"
    InputClass := none, State := some "DELETED", Destinations := [], Tags := [] }

/-- A sample "h264_settings" entry with framerate_control SPECIFIED. -/
def h264ConfSpecified : H264Conf :=
  { adaptive_quantization := "AUTO", afd_signaling := "NONE", bitrate := 5000000
    buf_fill_pct := 90, buf_size := 10000000, color_metadata := "INSERT"
    entropy_encoding := "CABAC", flicker_aq := "ENABLED", force_field_pictures := "DISABLED"
    gop_b_reference := "DISABLED", gop_closed_cadence := 1, gop_num_b_frames := 2
    gop_size := 2, gop_size_units := "SECONDS", level := "H264_LEVEL_AUTO"
    look_ahead_rate_control := "MEDIUM", num_ref_frames := 1, par_control := "SPECIFIED"
    quality_level := "STANDARD_QUALITY", profile := "MAIN", rate_control_mode := "CBR"
    stx := "DEFAULT", scene_change_detect := "ENABLED", spatial_aq := "ENABLED"
    temporal_aq := "ENABLED", timecode_insertion := "DISABLED"
    framerate_control := "SPECIFIED", framerate_numerator := 30000, framerate_denominator := 1001 }

/-- The same entry with framerate_control INITIALIZE_FROM_SOURCE. -/
def h264ConfUnspecified : H264Conf :=
  { h264ConfSpecified with framerate_control := "INITIALIZE_FROM_SOURCE"
                           framerate_numerator := 30, framerate_denominator := 1 }

/-- A sample "hls_group_settings" entry. -/
def hlsGroupConfEx : HlsGroupSettingsConf :=
  { caption_language_setting := "OMIT", caption_language_mapping := []
    codec_specification := "RFC_4281", client_cache := "ENABLED", hls_cdn_settings := []
    hls_id3_segment_tagging := "DISABLED", index_n_segments := 10
    input_loss_action := "EMIT_OUTPUT", iv_in_manifest := "INCLUDE", iv_source := "FOLLOWS_SEGMENT_NUMBER"
    iframe_only_playlists := "DISABLED", keep_segments := 21, manifest_compression := "NONE"
    manifest_duration_format := "FLOATING_POINT", mode := "LIVE", output_selection := "MANIFESTS_AND_SEGMENTS"
    program_date_time := "EXCLUDE", program_date_time_period := 600, redundant_manifest := "DISABLED"
    segmentation_mode := "USE_SEGMENT_DURATION", segment_length := 6
    destination := [{ destination_ref_id := "dest-1" }]
    directory_structure := "SINGLE_DIRECTORY", segments_per_subdirectory := 10000
    stream_inf_resolution := "INCLUDE", timed_metadata_id3_frame := "PRIV"
    timed_metadata_id3_period := 10, timestamp_delta_milliseconds := 0, ts_file_mode := "SEGMENTED_FILES" }

/-- A sample "output_group_settings" entry with an HLS group and no RTMP
group. -/
def outputGroupConfEx : OutputGroupSettingsConf :=
  { hls_group_settings := [hlsGroupConfEx], rtmp_group_settings := [] }

/-- A sample "hls_output_settings" entry. -/
def hlsOutputConfEx : HlsOutputSettingsConf :=
  { hls_settings := [], name_modifier := "_hi", h_265_packaging_type := "HVC1", segment_modifier := "_s" }

/-- A sample "output_settings" entry with HLS output settings and no RTMP
output settings. -/
def outputSettingsConfEx : OutputSettingsConf :=
  { hls_output_settings := [hlsOutputConfEx], rtmp_output_settings := [] }

/-- A sample channel destination configuration. -/
def channelDestConfEx : ChannelDestinationConf :=
  { id := "dest-1"
    settings := [{ password_param := "/medialive/pw", stream_name := "app/stream"
                   url := "rtmp://dest.example/live", username := "user1" }] }

/-! ## Lemmas about the waiter loop -/

/-- When the polling loop returns a state, that state is in the target set
(or the target set was empty, the waiting-for-absence mode). -/
theorem waitLoop_ok_mem (pending target : List String) (nfc cto : Nat) :
    ∀ (polls : List RefreshResult) (nt tc s : _),
      waitLoop pending target nfc cto nt tc polls = .ok s → s ∈ target ∨ target = [] := by
  intro polls
  induction polls with
  | nil => intro nt tc s h; simp [waitLoop] at h
  | cons r rest ih =>
    intro nt tc s h
    rw [waitLoop.eq_def] at h
    rcases r with ⟨present, state⟩ | e
    · dsimp only at h
      split at h
      · split at h
        · rename_i hcond
          cases h
          exact Or.inl (List.mem_of_elem_eq_true hcond.1)
        · split at h
          · simp at h
          · exact ih _ _ _ h
      · split at h
        · rename_i htgt
          split at h
          · exact Or.inr htgt
          · exact ih _ _ _ h
        · split at h
          · simp at h
          · exact ih _ _ _ h
    · simp at h

/-- Errors out of the polling loop are never AWS NotFoundException errors,
provided no refresh outcome in the list carries one. -/
theorem waitLoop_error_notFound (pending target : List String) (nfc cto : Nat) :
    ∀ (polls : List RefreshResult) (nt tc e : _),
      (∀ e', RefreshResult.failed e' ∈ polls → isAWSErr e' ErrCodeNotFoundException "" = false) →
      waitLoop pending target nfc cto nt tc polls = .error e →
      isAWSErr e ErrCodeNotFoundException "" = false := by
  intro polls
  induction polls with
  | nil =>
    intro nt tc e _ h
    simp [waitLoop] at h
    subst h
    rfl
  | cons r rest ih =>
    intro nt tc e hnf h
    rw [waitLoop.eq_def] at h
    rcases r with ⟨present, state⟩ | e'
    · dsimp only at h
      split at h
      · split at h
        · simp at h
        · split at h
          · cases h; rfl
          · exact ih _ _ _ (fun e' hm => hnf e' (List.mem_cons_of_mem _ hm)) h
      · split at h
        · split at h
          · simp at h
          · exact ih _ _ _ (fun e' hm => hnf e' (List.mem_cons_of_mem _ hm)) h
        · split at h
          · cases h; rfl
          · exact ih _ _ _ (fun e' hm => hnf e' (List.mem_cons_of_mem _ hm)) h
    · dsimp only at h
      injection h with h2
      subst h2
      exact hnf _ (List.mem_cons_self _ _)

/-- The waiter `WaitForState` only succeeds on a target state when the target set is
non-empty. -/
theorem waitForState_ok_mem (conf : StateChangeConf) (polls : List RefreshResult) (s : String)
    (h : waitForState conf polls = .ok s) : s ∈ conf.Target ∨ conf.Target = [] :=
  waitLoop_ok_mem _ _ _ _ polls 0 0 s h

/-- The waiter `WaitForState` never fails with an AWS NotFoundException when no
refresh outcome carries one. -/
theorem waitForState_error_notFound (conf : StateChangeConf) (polls : List RefreshResult) (e : GoErr)
    (hnf : ∀ e', RefreshResult.failed e' ∈ polls → isAWSErr e' ErrCodeNotFoundException "" = false)
    (h : waitForState conf polls = .error e) : isAWSErr e ErrCodeNotFoundException "" = false :=
  waitLoop_error_notFound _ _ _ _ polls 0 0 e hnf h

/-- The input deletion refresh function never produces an AWS
NotFoundException as a failure. -/
theorem mediaLiveInputRefreshFunc_no_notFound
    (describes : List (Except GoErr DescribeInputOutput)) (e' : GoErr)
    (hm : RefreshResult.failed e' ∈ describes.map mediaLiveInputRefreshFunc) :
    isAWSErr e' ErrCodeNotFoundException "" = false := by
  rcases List.mem_map.mp hm with ⟨d, _, hd⟩
  rcases d with e0 | r
  · by_cases hc : isAWSErr e0 ErrCodeNotFoundException "" = true
    · simp [mediaLiveInputRefreshFunc, hc] at hd
    · simp [mediaLiveInputRefreshFunc, hc] at hd
      cases hd
      rfl
  · simp [mediaLiveInputRefreshFunc] at hd

/-- The channel deletion refresh function never produces an AWS
NotFoundException as a failure. -/
theorem mediaLiveChannelRefreshFunc_no_notFound
    (describes : List (Except GoErr DescribeChannelOutput)) (e' : GoErr)
    (hm : RefreshResult.failed e' ∈ describes.map mediaLiveChannelRefreshFunc) :
    isAWSErr e' ErrCodeNotFoundException "" = false := by
  rcases List.mem_map.mp hm with ⟨d, _, hd⟩
  rcases d with e0 | r
  · by_cases hc : isAWSErr e0 ErrCodeNotFoundException "" = true
    · simp [mediaLiveChannelRefreshFunc, hc] at hd
    · simp [mediaLiveChannelRefreshFunc, hc] at hd
      cases hd
      rfl
  · simp [mediaLiveChannelRefreshFunc] at hd

/-- Claim C3, counterexample: the earlier revision of
`resourceAwsMediaLiveInputCreate` runs no waiter at all; it reports success
directly after CreateInput and a Read, here while the input's described
state is still CREATING, which is in the creation waiter's pending set and
not in its target set. -/
theorem c3_counterexample_inputCreateV1_no_waiter :
    (resourceAwsMediaLiveInputCreateV1 (.ok "input-1") (.ok descInputCreating)).isSuccess = true ∧
    "CREATING" ∈ inputCreateStateConf.Pending ∧ "CREATING" ∉ inputCreateStateConf.Target := by
  decide

/-- Claim C3 (amended): channel create, channel delete, input delete, and
the later revision of input create return success only when their waiter
stabilised on a state in its target set — except that a delete call that
already reports NotFoundException succeeds without waiting; the earlier
revision of input create runs no waiter (see the counterexample). -/
theorem c3_waiters_gate_success :
    (∀ createRes describes readRes,
      (resourceAwsMediaLiveChannelCreate createRes describes readRes).isSuccess = true →
      ∃ s, waitForState channelCreateStateConf (describes.map channelCreateRefresh) = .ok s ∧
        s ∈ channelCreateStateConf.Target) ∧
    (∀ createRes describes readRes,
      (resourceAwsMediaLiveInputCreate createRes describes readRes).isSuccess = true →
      ∃ s, waitForState inputCreateStateConf (describes.map inputCreateRefresh) = .ok s ∧
        s ∈ inputCreateStateConf.Target) ∧
    (∀ deleteRes describes,
      (resourceAwsMediaLiveChannelDelete deleteRes describes).isSuccess = true →
      (∃ e, deleteRes = .error e ∧ isAWSErr e ErrCodeNotFoundException "" = true) ∨
      ∃ s, waitForState channelDeletionStateConf (describes.map mediaLiveChannelRefreshFunc) = .ok s ∧
        s ∈ channelDeletionStateConf.Target) ∧
    (∀ deleteRes describes,
      (resourceAwsMediaLiveInputDelete deleteRes describes).isSuccess = true →
      (∃ e, deleteRes = .error e ∧ isAWSErr e ErrCodeNotFoundException "" = true) ∨
      ∃ s, waitForState inputDeletionStateConf (describes.map mediaLiveInputRefreshFunc) = .ok s ∧
        s ∈ inputDeletionStateConf.Target) := by
  refine ⟨?_, ?_, ?_, ?_⟩
  · intro createRes describes readRes h
    cases createRes with
    | error e => simp [resourceAwsMediaLiveChannelCreate, OpOutcome.isSuccess] at h
    | ok cid =>
      cases hws : waitForState channelCreateStateConf (describes.map channelCreateRefresh) with
      | error e =>
        simp [resourceAwsMediaLiveChannelCreate, hws, OpOutcome.isSuccess] at h
      | ok s =>
        refine ⟨s, rfl, ?_⟩
        rcases waitForState_ok_mem _ _ _ hws with hm | hemp
        · exact hm
        · simp [channelCreateStateConf] at hemp
  · intro createRes describes readRes h
    cases createRes with
    | error e => simp [resourceAwsMediaLiveInputCreate, OpOutcome.isSuccess] at h
    | ok cid =>
      cases hws : waitForState inputCreateStateConf (describes.map inputCreateRefresh) with
      | error e =>
        simp [resourceAwsMediaLiveInputCreate, hws, OpOutcome.isSuccess] at h
      | ok s =>
        refine ⟨s, rfl, ?_⟩
        rcases waitForState_ok_mem _ _ _ hws with hm | hemp
        · exact hm
        · simp [inputCreateStateConf] at hemp
  · intro deleteRes describes h
    cases deleteRes with
    | error e =>
      left
      refine ⟨e, rfl, ?_⟩
      by_cases hc : isAWSErr e ErrCodeNotFoundException "" = true
      · exact hc
      · simp [resourceAwsMediaLiveChannelDelete, hc, OpOutcome.isSuccess] at h
    | ok u =>
      right
      cases hws : waitForState channelDeletionStateConf (describes.map mediaLiveChannelRefreshFunc) with
      | ok s =>
        refine ⟨s, rfl, ?_⟩
        rcases waitForState_ok_mem _ _ _ hws with hm | hemp
        · exact hm
        · simp [channelDeletionStateConf] at hemp
      | error e =>
        have hfalse :=
          waitForState_error_notFound _ _ _ (mediaLiveChannelRefreshFunc_no_notFound describes) hws
        simp [resourceAwsMediaLiveChannelDelete, waitForMediaLiveChannelDeletion,
              waitForMediaLiveChannelDeletionFrom, hws, hfalse, OpOutcome.isSuccess] at h
  · intro deleteRes describes h
    cases deleteRes with
    | error e =>
      left
      refine ⟨e, rfl, ?_⟩
      by_cases hc : isAWSErr e ErrCodeNotFoundException "" = true
      · exact hc
      · simp [resourceAwsMediaLiveInputDelete, hc, OpOutcome.isSuccess] at h
    | ok u =>
      right
      cases hws : waitForState inputDeletionStateConf (describes.map mediaLiveInputRefreshFunc) with
      | ok s =>
        refine ⟨s, rfl, ?_⟩
        rcases waitForState_ok_mem _ _ _ hws with hm | hemp
        · exact hm
        · simp [inputDeletionStateConf] at hemp
      | error e =>
        have hfalse :=
          waitForState_error_notFound _ _ _ (mediaLiveInputRefreshFunc_no_notFound describes) hws
        simp [resourceAwsMediaLiveInputDelete, waitForMediaLiveInputDeletion,
              waitForMediaLiveInputDeletionFrom, hws, hfalse, OpOutcome.isSuccess] at h

/-- Claim C3, witness: the four waiter-guarded operations succeed on
concrete traces, and the theorem yields the target state each waiter
stabilised on. -/
theorem c3_waiters_gate_success_witness :
    (∃ s, waitForState channelCreateStateConf
        ((List.replicate 5 (Except.ok descChannelIdle)).map channelCreateRefresh) = .ok s ∧
      s ∈ channelCreateStateConf.Target) ∧
    (∃ s, waitForState inputCreateStateConf
        ((List.replicate 5 (Except.ok descInputAttached)).map inputCreateRefresh) = .ok s ∧
      s ∈ inputCreateStateConf.Target) ∧
    ((∃ e, (Except.ok () : Except GoErr Unit) = .error e ∧ isAWSErr e ErrCodeNotFoundException "" = true) ∨
      ∃ s, waitForState channelDeletionStateConf
          ([Except.ok descChannelDeleting, Except.ok descChannelDeleted].map mediaLiveChannelRefreshFunc) = .ok s ∧
        s ∈ channelDeletionStateConf.Target) ∧
    ((∃ e, (Except.error (GoErr.awsErr "NotFoundException" "input gone") : Except GoErr Unit) = .error e ∧
        isAWSErr e ErrCodeNotFoundException "" = true) ∨
      ∃ s, waitForState inputDeletionStateConf (([] : List (Except GoErr DescribeInputOutput)).map mediaLiveInputRefreshFunc) = .ok s ∧
        s ∈ inputDeletionStateConf.Target) :=
  ⟨c3_waiters_gate_success.1 (.ok "ch-1") (List.replicate 5 (.ok descChannelIdle)) (.ok descChannelIdle)
      (by decide),
   c3_waiters_gate_success.2.1 (.ok "in-1") (List.replicate 5 (.ok descInputAttached)) (.ok descInputAttached)
      (by decide),
   c3_waiters_gate_success.2.2.1 (.ok ()) [.ok descChannelDeleting, .ok descChannelDeleted]
      (by decide),
   c3_waiters_gate_success.2.2.2 (.error (.awsErr "NotFoundException" "input gone")) []
      (by decide)⟩

/-- Claim C4, counterexample: in the earlier revision of
`waitForMediaLiveInputDeletion` the state DELETED is listed both as pending
and as the target, so the pending and target sets are not disjoint. -/
theorem c4_counterexample_deleted_in_both :
    "DELETED" ∈ inputDeletionStateConfV1.Pending ∧ "DELETED" ∈ inputDeletionStateConfV1.Target := by
  decide

/-- Claim C4 (amended): the channel creation, channel deletion, input
creation and later-revision input deletion waiters have disjoint pending
and target sets; the earlier-revision input deletion waiter overlaps
exactly in DELETED. -/
theorem c4_waiter_sets_disjoint :
    inputDeletionStateConf.Pending.filter (fun s => inputDeletionStateConf.Target.contains s) = [] ∧
    channelDeletionStateConf.Pending.filter (fun s => channelDeletionStateConf.Target.contains s) = [] ∧
    inputCreateStateConf.Pending.filter (fun s => inputCreateStateConf.Target.contains s) = [] ∧
    channelCreateStateConf.Pending.filter (fun s => channelCreateStateConf.Target.contains s) = [] ∧
    inputDeletionStateConfV1.Pending.filter (fun s => inputDeletionStateConfV1.Target.contains s) = ["DELETED"] := by
  decide

/-- Claim C9: for all three resources a NotFoundException from the delete
call makes Delete return nil with no schema writes, and the two deletion
waiters likewise swallow a NotFoundException from `WaitForState`. -/
theorem c9_delete_not_found_is_success (e : GoErr)
    (describesIn : List (Except GoErr DescribeInputOutput))
    (describesCh : List (Except GoErr DescribeChannelOutput))
    (h : isAWSErr e ErrCodeNotFoundException "" = true) :
    resourceAwsMediaLiveInputDelete (.error e) describesIn = .ok [] ∧
    resourceAwsMediaLiveChannelDelete (.error e) describesCh = .ok [] ∧
    resourceAwsMediaPackageOriginEndpointDelete (.error e) = .ok [] ∧
    waitForMediaLiveInputDeletionFrom (.error e) = .ok () ∧
    waitForMediaLiveChannelDeletionFrom (.error e) = .ok () := by
  refine ⟨?_, ?_, ?_, ?_, ?_⟩ <;>
    simp [resourceAwsMediaLiveInputDelete, resourceAwsMediaLiveChannelDelete,
          resourceAwsMediaPackageOriginEndpointDelete, waitForMediaLiveInputDeletionFrom,
          waitForMediaLiveChannelDeletionFrom, h]

/-- Claim C9, witness: a concrete NotFoundException. -/
theorem c9_delete_not_found_is_success_witness :
    resourceAwsMediaLiveInputDelete (.error (.awsErr "NotFoundException" "no such input")) [] = .ok [] ∧
    resourceAwsMediaLiveChannelDelete (.error (.awsErr "NotFoundException" "no such channel")) [] = .ok [] ∧
    resourceAwsMediaPackageOriginEndpointDelete (.error (.awsErr "NotFoundException" "gone")) = .ok [] ∧
    waitForMediaLiveInputDeletionFrom (.error (.awsErr "NotFoundException" "gone")) = .ok () ∧
    waitForMediaLiveChannelDeletionFrom (.error (.awsErr "NotFoundException" "gone")) = .ok () :=
  ⟨(c9_delete_not_found_is_success (.awsErr "NotFoundException" "no such input") [] [] (by decide)).1,
   (c9_delete_not_found_is_success (.awsErr "NotFoundException" "no such channel") [] [] (by decide)).2.1,
   (c9_delete_not_found_is_success (.awsErr "NotFoundException" "gone") [] [] (by decide)).2.2.1,
   (c9_delete_not_found_is_success (.awsErr "NotFoundException" "gone") [] [] (by decide)).2.2.2.1,
   (c9_delete_not_found_is_success (.awsErr "NotFoundException" "gone") [] [] (by decide)).2.2.2.2⟩

/-! ## Lemmas about the marker fields of the expanded group/output settings -/

/-- The HLS group settings carry a Mode exactly when the set was
non-empty. -/
theorem expandHlsGroupSettings_mode_isSome (l : List HlsGroupSettingsConf) :
    (expandHlsGroupSettings l).Mode.isSome = true ↔ l ≠ [] := by
  cases l <;> simp [expandHlsGroupSettings, emptyHlsGroupSettings]

/-- The RTMP group settings carry an AuthenticationScheme exactly when the
set was non-empty. -/
theorem expandRtmpGroupSettings_auth_isSome (l : List RtmpGroupSettingsConf) :
    (expandRtmpGroupSettings l).AuthenticationScheme.isSome = true ↔ l ≠ [] := by
  cases l <;> simp [expandRtmpGroupSettings, emptyRtmpGroupSettings]

/-- The expanded HLS output settings differ from the zero struct exactly
when the set was non-empty. -/
theorem expandHlsOutputSettings_ne_empty (l : List HlsOutputSettingsConf) :
    expandHlsOutputSettings l ≠ emptyHlsOutputSettings ↔ l ≠ [] := by
  cases l <;> simp [expandHlsOutputSettings, emptyHlsOutputSettings]

/-- The expanded RTMP output settings differ from the zero struct exactly
when the set was non-empty. -/
theorem expandRtmpOutputSettings_ne_empty (l : List RtmpOutputSettingsConf) :
    expandRtmpOutputSettings l ≠ emptyRtmpOutputSettings ↔ l ≠ [] := by
  cases l <;> simp [expandRtmpOutputSettings, emptyRtmpOutputSettings]

/-- Claim C6: `expandOutputGroupSettings` attaches the HLS group settings
only when their Mode is set (equivalently, when the "hls_group_settings"
set was non-empty) and the RTMP group settings only when their
AuthenticationScheme is set; `expandOutputSettings` attaches HLS/RTMP
output settings only when they differ from the zero struct, so no empty
sub-struct is ever attached. -/
theorem c6_no_empty_substructs (gs : List OutputGroupSettingsConf) (os : List OutputSettingsConf) :
    (∀ h, (expandOutputGroupSettings gs).HlsGroupSettings = some h →
        h.Mode.isSome = true ∧ h ≠ emptyHlsGroupSettings) ∧
    ((expandOutputGroupSettings gs).HlsGroupSettings.isSome = true ↔
        ∃ c rest, gs = c :: rest ∧ c.hls_group_settings ≠ []) ∧
    (∀ r, (expandOutputGroupSettings gs).RtmpGroupSettings = some r →
        r.AuthenticationScheme.isSome = true ∧ r ≠ emptyRtmpGroupSettings) ∧
    ((expandOutputGroupSettings gs).RtmpGroupSettings.isSome = true ↔
        ∃ c rest, gs = c :: rest ∧ c.rtmp_group_settings ≠ []) ∧
    (∀ h, (expandOutputSettings os).HlsOutputSettings = some h → h ≠ emptyHlsOutputSettings) ∧
    ((expandOutputSettings os).HlsOutputSettings.isSome = true ↔
        ∃ c rest, os = c :: rest ∧ c.hls_output_settings ≠ []) ∧
    (∀ r, (expandOutputSettings os).RtmpOutputSettings = some r → r ≠ emptyRtmpOutputSettings) ∧
    ((expandOutputSettings os).RtmpOutputSettings.isSome = true ↔
        ∃ c rest, os = c :: rest ∧ c.rtmp_output_settings ≠ []) := by
  refine ⟨?_, ?_, ?_, ?_, ?_, ?_, ?_, ?_⟩
  · intro h hh
    cases gs with
    | nil => simp [expandOutputGroupSettings] at hh
    | cons c rest =>
      simp only [expandOutputGroupSettings] at hh
      split at hh
      · rename_i hmode
        cases hh
        refine ⟨hmode, ?_⟩
        intro heq
        rw [heq] at hmode
        simp [emptyHlsGroupSettings] at hmode
      · cases hh
  · cases gs with
    | nil => simp [expandOutputGroupSettings]
    | cons c rest =>
      simp only [expandOutputGroupSettings]
      constructor
      · intro hs
        by_cases hc : (expandHlsGroupSettings c.hls_group_settings).Mode.isSome = true
        · exact ⟨c, rest, rfl, (expandHlsGroupSettings_mode_isSome _).mp hc⟩
        · rw [if_neg hc] at hs
          simp at hs
      · rintro ⟨c', rest', heq, hne⟩
        injection heq with h1 h2
        subst h1
        rw [if_pos ((expandHlsGroupSettings_mode_isSome _).mpr hne)]
        simp
  · intro r hr
    cases gs with
    | nil => simp [expandOutputGroupSettings] at hr
    | cons c rest =>
      simp only [expandOutputGroupSettings] at hr
      split at hr
      · rename_i hauth
        cases hr
        refine ⟨hauth, ?_⟩
        intro heq
        rw [heq] at hauth
        simp [emptyRtmpGroupSettings] at hauth
      · cases hr
  · cases gs with
    | nil => simp [expandOutputGroupSettings]
    | cons c rest =>
      simp only [expandOutputGroupSettings]
      constructor
      · intro hs
        by_cases hc : (expandRtmpGroupSettings c.rtmp_group_settings).AuthenticationScheme.isSome = true
        · exact ⟨c, rest, rfl, (expandRtmpGroupSettings_auth_isSome _).mp hc⟩
        · rw [if_neg hc] at hs
          simp at hs
      · rintro ⟨c', rest', heq, hne⟩
        injection heq with h1 h2
        subst h1
        rw [if_pos ((expandRtmpGroupSettings_auth_isSome _).mpr hne)]
        simp
  · intro h hh
    cases os with
    | nil => simp [expandOutputSettings] at hh
    | cons c rest =>
      simp only [expandOutputSettings] at hh
      split at hh
      · rename_i hne
        cases hh
        exact hne
      · cases hh
  · cases os with
    | nil => simp [expandOutputSettings]
    | cons c rest =>
      simp only [expandOutputSettings]
      constructor
      · intro hs
        by_cases hc : expandHlsOutputSettings c.hls_output_settings ≠ emptyHlsOutputSettings
        · exact ⟨c, rest, rfl, (expandHlsOutputSettings_ne_empty _).mp hc⟩
        · rw [if_neg hc] at hs
          simp at hs
      · rintro ⟨c', rest', heq, hne⟩
        injection heq with h1 h2
        subst h1
        rw [if_pos ((expandHlsOutputSettings_ne_empty _).mpr hne)]
        simp
  · intro r hr
    cases os with
    | nil => simp [expandOutputSettings] at hr
    | cons c rest =>
      simp only [expandOutputSettings] at hr
      split at hr
      · rename_i hne
        cases hr
        exact hne
      · cases hr
  · cases os with
    | nil => simp [expandOutputSettings]
    | cons c rest =>
      simp only [expandOutputSettings]
      constructor
      · intro hs
        by_cases hc : expandRtmpOutputSettings c.rtmp_output_settings ≠ emptyRtmpOutputSettings
        · exact ⟨c, rest, rfl, (expandRtmpOutputSettings_ne_empty _).mp hc⟩
        · rw [if_neg hc] at hs
          simp at hs
      · rintro ⟨c', rest', heq, hne⟩
        injection heq with h1 h2
        subst h1
        rw [if_pos ((expandRtmpOutputSettings_ne_empty _).mpr hne)]
        simp

/-- Claim C6, witness: on a configuration with one HLS group and one HLS
output, the attached sub-structs exist and are non-empty. -/
theorem c6_no_empty_substructs_witness :
    (expandOutputGroupSettings [outputGroupConfEx]).HlsGroupSettings.isSome = true ∧
    expandHlsGroupSettings outputGroupConfEx.hls_group_settings ≠ emptyHlsGroupSettings ∧
    (expandOutputSettings [outputSettingsConfEx]).HlsOutputSettings.isSome = true ∧
    expandHlsOutputSettings outputSettingsConfEx.hls_output_settings ≠ emptyHlsOutputSettings :=
  ⟨(c6_no_empty_substructs [outputGroupConfEx] [outputSettingsConfEx]).2.1.mpr
      ⟨outputGroupConfEx, [], rfl, by decide⟩,
   ((c6_no_empty_substructs [outputGroupConfEx] [outputSettingsConfEx]).1
      (expandHlsGroupSettings outputGroupConfEx.hls_group_settings) (by decide)).2,
   (c6_no_empty_substructs [outputGroupConfEx] [outputSettingsConfEx]).2.2.2.2.2.1.mpr
      ⟨outputSettingsConfEx, [], rfl, by decide⟩,
   (c6_no_empty_substructs [outputGroupConfEx] [outputSettingsConfEx]).2.2.2.2.1
      (expandHlsOutputSettings outputSettingsConfEx.hls_output_settings) (by decide)⟩

/-- The function `expandOutputDestinationSettings` acts as the element-wise translation
of its input (the empty-input early return coincides with the empty map). -/
theorem expandOutputDestinationSettings_eq_map (xs : List OutputDestinationSettingsConf) :
    expandOutputDestinationSettings xs =
      xs.map (fun s =>
        { PasswordParam := some s.password_param, StreamName := some s.stream_name
          Url := some s.url, Username := some s.username }) := by
  cases xs <;> simp [expandOutputDestinationSettings]

/-- Claim C7: an empty channel "destinations" list expands to nil;
otherwise the expansion preserves length and translates the i-th map to an
`OutputDestination` with its "id" and the element-wise translation of its
"settings". -/
theorem c7_expandDestinations (l : List ChannelDestinationConf) :
    (l = [] → expandDestinations l = []) ∧
    (l ≠ [] →
      (expandDestinations l).length = l.length ∧
      ∀ i : Nat, (expandDestinations l)[i]? =
        (l[i]?).map (fun r =>
          { Id := some r.id
            Settings := r.settings.map (fun s =>
              { PasswordParam := some s.password_param, StreamName := some s.stream_name
                Url := some s.url, Username := some s.username }) })) := by
  constructor
  · intro h
    subst h
    rfl
  · intro h
    have hmap : expandDestinations l =
        l.map (fun r =>
          { Id := some r.id
            Settings := r.settings.map (fun s =>
              { PasswordParam := some s.password_param, StreamName := some s.stream_name
                Url := some s.url, Username := some s.username }) }) := by
      unfold expandDestinations
      rw [if_neg h]
      refine List.map_congr_left ?_
      intro r _
      rw [expandOutputDestinationSettings_eq_map]
    refine ⟨?_, ?_⟩
    · rw [hmap, List.length_map]
    · intro i
      rw [hmap, List.getElem?_map]

/-- Claim C7, witness: a concrete one-destination configuration. -/
theorem c7_expandDestinations_witness :
    (expandDestinations [channelDestConfEx]).length = [channelDestConfEx].length ∧
    (expandDestinations [channelDestConfEx])[0]? =
      ([channelDestConfEx][0]?).map (fun r =>
        { Id := some r.id
          Settings := r.settings.map (fun s =>
            { PasswordParam := some s.password_param, StreamName := some s.stream_name
              Url := some s.url, Username := some s.username }) }) :=
  ⟨((c7_expandDestinations [channelDestConfEx]).2 (by decide)).1,
   ((c7_expandDestinations [channelDestConfEx]).2 (by decide)).2 0⟩

/-- Claim C5, counterexample: the later revision of `expandH264Settings`
copies the framerate numerator and denominator even though
framerate_control is not "SPECIFIED". -/
theorem c5_counterexample_v2_sets_framerate_unconditionally :
    (expandH264SettingsV2 [h264ConfUnspecified]).FramerateControl = some "INITIALIZE_FROM_SOURCE" ∧
    (expandH264SettingsV2 [h264ConfUnspecified]).FramerateNumerator = some 30 ∧
    (expandH264SettingsV2 [h264ConfUnspecified]).FramerateDenominator = some 1 := by
  refine ⟨rfl, rfl, rfl⟩

/-- Claim C5 (amended): the earlier revision of `expandH264Settings` copies
framerate_control and sets the framerate numerator/denominator exactly when
framerate_control is "SPECIFIED"; the later revision copies
framerate_control but sets the numerator/denominator unconditionally. -/
theorem c5_expandH264Settings_framerate (c : H264Conf) (rest : List H264Conf) :
    (expandH264Settings (c :: rest)).FramerateControl = some c.framerate_control ∧
    (c.framerate_control = "SPECIFIED" →
      (expandH264Settings (c :: rest)).FramerateNumerator = some c.framerate_numerator ∧
      (expandH264Settings (c :: rest)).FramerateDenominator = some c.framerate_denominator) ∧
    (c.framerate_control ≠ "SPECIFIED" →
      (expandH264Settings (c :: rest)).FramerateNumerator = none ∧
      (expandH264Settings (c :: rest)).FramerateDenominator = none) ∧
    (expandH264SettingsV2 (c :: rest)).FramerateControl = some c.framerate_control ∧
    (expandH264SettingsV2 (c :: rest)).FramerateNumerator = some c.framerate_numerator ∧
    (expandH264SettingsV2 (c :: rest)).FramerateDenominator = some c.framerate_denominator := by
  refine ⟨rfl, ?_, ?_, rfl, rfl, rfl⟩ <;> intro h <;>
    constructor <;> simp [expandH264Settings, h]

/-- Claim C5, witness: both branches of the SPECIFIED test at concrete
configurations. -/
theorem c5_expandH264Settings_framerate_witness :
    ((expandH264Settings [h264ConfSpecified]).FramerateNumerator = some 30000 ∧
      (expandH264Settings [h264ConfSpecified]).FramerateDenominator = some 1001) ∧
    ((expandH264Settings [h264ConfUnspecified]).FramerateNumerator = none ∧
      (expandH264Settings [h264ConfUnspecified]).FramerateDenominator = none) :=
  ⟨(c5_expandH264Settings_framerate h264ConfSpecified []).2.1 (by decide),
   (c5_expandH264Settings_framerate h264ConfUnspecified []).2.2.1 (by decide)⟩

/-- Claim C1: evaluating the later-revision flatten/Read at a concrete
described destination shows the "ip" entry receives the Port field and the
"port" entry receives the Ip field (the two are swapped), while "url" and
"stream_name" behave as claimed. -/
theorem c1_flatten_swaps_ip_and_port :
    flattenInputDestinations [inputDestinationEx] =
      .ok [{ ip := "5000", port := "10.0.0.1", url := "rtmp://10.0.0.1:1935/live/st1"
             stream_name := "live/st1" }] ∧
    resourceAwsMediaLiveInputRead
        (.ok { Arn := some "arn:ml:in", InputType := some "RTMP_PUSH", Name := some "in1"
               InputClass := some "STANDARD", State := some "ATTACHED"
               Destinations := [inputDestinationEx], Tags := [] }) =
      .ok [("destinations", .flatDests [{ ip := "5000", port := "10.0.0.1"
                                          url := "rtmp://10.0.0.1:1935/live/st1"
                                          stream_name := "live/st1" }]),
           ("arn", .str "arn:ml:in"), ("type", .str "RTMP_PUSH"), ("name", .str "in1"),
           ("input_class", .str "STANDARD"), ("tags", .tagMap [])] := by
  refine ⟨by decide, by decide⟩

/-- Claim C2: the earlier-revision Create builds its local security-group
slice but never assigns it, so the request field stays nil even for a
non-empty "input_security_groups" list; the later revision assigns it via
`convertInputSecurityGroups`. -/
theorem c2_createInputInput_drops_security_groups :
    inputConfigEx.input_security_groups = ["sg-123456"] ∧
    (buildCreateInputInputV1 inputConfigEx).InputSecurityGroups = none ∧
    (buildCreateInputInputV2 "uuid-1" inputConfigEx).InputSecurityGroups = some [some "sg-123456"] := by
  refine ⟨rfl, by decide, by decide⟩

/-- Claim C8: `obtainStreamName` panics (it does not return) on a nil URL
pointer and on any URL whose parsed path is empty, and the panic is
reachable through `flattenInputDestinations`. -/
theorem c8_obtainStreamName_panics :
    obtainStreamName (some "") = .error .sliceOutOfRange ∧
    obtainStreamName (some "rtmp://host") = .error .sliceOutOfRange ∧
    obtainStreamName none = .error .nilDereference ∧
    flattenInputDestinations [{ Ip := some "1.2.3.4", Port := some "5000", Url := some "rtmp://host" }] =
      .error .sliceOutOfRange ∧
    flattenInputDestinations [{ Ip := some "1.2.3.4", Port := some "5000", Url := none }] =
      .error .nilDereference := by
  refine ⟨by decide, by decide, rfl, by decide, by decide⟩

/-- Claim C10: `Canonicalize` returns iam role/user/root and sts
federated-user ARNs unchanged, rewrites sts assumed-role ARNs with at
least three slash-separated resource segments to the underlying iam role
ARN, and errors on every other input (unparsable ARN, unrecognized
partition, other service, other resource type, short assumed-role). -/
theorem c10_canonicalize_spec :
    (∀ part, checkPartition part = .ok () ↔ (part = "aws" ∨ part = "aws-cn" ∨ part = "aws-us-gov")) ∧
    (∀ s e, arnParse s = .error e → Canonicalize s = .error "arn is invalid") ∧
    (∀ s p e', arnParse s = .ok p → checkPartition p.Partition = .error e' →
      Canonicalize s = .error "arn does not have a recognized partition") ∧
    (∀ s p, arnParse s = .ok p → checkPartition p.Partition = .ok () →
      ((p.Service = "iam" ∧
          ((strSplit p.Resource '/').headD "" = "role" ∨ (strSplit p.Resource '/').headD "" = "user" ∨
            (strSplit p.Resource '/').headD "" = "root")) →
        Canonicalize s = .ok s) ∧
      ((p.Service = "sts" ∧ (strSplit p.Resource '/').headD "" = "federated-user") →
        Canonicalize s = .ok s) ∧
      ((p.Service = "sts" ∧ (strSplit p.Resource '/').headD "" = "assumed-role" ∧
          3 ≤ (strSplit p.Resource '/').length) →
        Canonicalize s = .ok ("arn:" ++ p.Partition ++ ":iam::" ++ p.AccountID ++ ":role/" ++
          strJoin "/" (((strSplit p.Resource '/').drop 1).dropLast))) ∧
      ((p.Service = "sts" ∧ (strSplit p.Resource '/').headD "" = "assumed-role" ∧
          (strSplit p.Resource '/').length < 3) →
        Canonicalize s = .error "assumed-role arn does not have a role") ∧
      ((p.Service = "sts" ∧ ¬ (strSplit p.Resource '/').headD "" = "federated-user" ∧
          ¬ (strSplit p.Resource '/').headD "" = "assumed-role") →
        Canonicalize s = .error "unrecognized resource for service sts") ∧
      ((p.Service = "iam" ∧ ¬ (strSplit p.Resource '/').headD "" = "role" ∧
          ¬ (strSplit p.Resource '/').headD "" = "user" ∧ ¬ (strSplit p.Resource '/').headD "" = "root") →
        Canonicalize s = .error "unrecognized resource for service iam") ∧
      ((¬ p.Service = "sts" ∧ ¬ p.Service = "iam") →
        Canonicalize s = .error "not a valid service for identities")) := by
  refine ⟨?_, ?_, ?_, ?_⟩
  · intro part
    constructor
    · intro h
      unfold checkPartition at h
      split_ifs at h with h1 h2 h3
      · exact Or.inl h1
      · exact Or.inr (Or.inl h2)
      · exact Or.inr (Or.inr h3)
    · intro h
      rcases h with h | h | h <;> simp [checkPartition, h]
  · intro s e h
    unfold Canonicalize
    rw [h]
  · intro s p e' hp hc
    simp only [Canonicalize, hp, hc]
  · intro s p hp hc
    have hC : Canonicalize s =
        (if p.Service = "sts" then
          (if (strSplit p.Resource '/').headD "" = "federated-user" then .ok s
           else if (strSplit p.Resource '/').headD "" = "assumed-role" then
             (if (strSplit p.Resource '/').length < 3 then
                .error "assumed-role arn does not have a role"
              else .ok ("arn:" ++ p.Partition ++ ":iam::" ++ p.AccountID ++ ":role/" ++
                strJoin "/" (((strSplit p.Resource '/').drop 1).dropLast)))
           else .error "unrecognized resource for service sts")
         else if p.Service = "iam" then
           (if (strSplit p.Resource '/').headD "" = "role" ∨ (strSplit p.Resource '/').headD "" = "user" ∨
              (strSplit p.Resource '/').headD "" = "root" then .ok s
            else .error "unrecognized resource for service iam")
         else .error "not a valid service for identities") := by
      simp only [Canonicalize, hp, hc]
    refine ⟨?_, ?_, ?_, ?_, ?_, ?_, ?_⟩
    · rintro ⟨hserv, hres⟩
      rw [hC, hserv, if_neg (by decide), if_pos rfl, if_pos hres]
    · rintro ⟨hserv, hres⟩
      rw [hC, hserv, if_pos rfl, if_pos hres]
    · rintro ⟨hserv, hres, hlen⟩
      rw [hC, hserv, hres, if_pos rfl, if_neg (by decide), if_pos rfl,
        if_neg (by omega)]
    · rintro ⟨hserv, hres, hlen⟩
      rw [hC, hserv, hres, if_pos rfl, if_neg (by decide), if_pos rfl, if_pos hlen]
    · rintro ⟨hserv, h1, h2⟩
      rw [hC, hserv, if_pos rfl, if_neg h1, if_neg h2]
    · rintro ⟨hserv, h1, h2, h3⟩
      rw [hC, hserv, if_neg (by decide), if_pos rfl, if_neg (by exact fun hor => hor.elim h1 (fun hh => hh.elim h2 h3))]
    · rintro ⟨h1, h2⟩
      rw [hC, if_neg h1, if_neg h2]

/-- Claim C10, witness: one concrete ARN per behaviour class. -/
theorem c10_canonicalize_spec_witness :
    checkPartition "aws-us-gov" = .ok () ∧
    Canonicalize "not-an-arn" = .error "arn is invalid" ∧
    Canonicalize "arn:gcp:iam::123456789012:role/x" = .error "arn does not have a recognized partition" ∧
    Canonicalize "arn:aws:iam::123456789012:user/Bob" = .ok "arn:aws:iam::123456789012:user/Bob" ∧
    Canonicalize "arn:aws:sts::123456789012:federated-user/Bob" = .ok "arn:aws:sts::123456789012:federated-user/Bob" ∧
    Canonicalize "arn:aws:sts::123456789012:assumed-role/path/Accounting-Role/Mary" =
      .ok ("arn:" ++ "aws" ++ ":iam::" ++ "123456789012" ++ ":role/" ++
        strJoin "/" (((strSplit "assumed-role/path/Accounting-Role/Mary" '/').drop 1).dropLast)) ∧
    Canonicalize "arn:aws:sts::123456789012:assumed-role/OnlyRole" =
      .error "assumed-role arn does not have a role" ∧
    Canonicalize "arn:aws:sts::123456789012:whatever/x" = .error "unrecognized resource for service sts" ∧
    Canonicalize "arn:aws:iam::123456789012:group/admins" = .error "unrecognized resource for service iam" ∧
    Canonicalize "arn:aws:s3:::bucket" = .error "not a valid service for identities" :=
  ⟨(c10_canonicalize_spec.1 "aws-us-gov").mpr (Or.inr (Or.inr rfl)),
   c10_canonicalize_spec.2.1 "not-an-arn" "arn: invalid ARN" (by decide),
   c10_canonicalize_spec.2.2.1 "arn:gcp:iam::123456789012:role/x"
     ⟨"gcp", "iam", "", "123456789012", "role/x"⟩ "partion is not recognized" (by decide) (by decide),
   (c10_canonicalize_spec.2.2.2 "arn:aws:iam::123456789012:user/Bob"
     ⟨"aws", "iam", "", "123456789012", "user/Bob"⟩ (by decide) (by decide)).1
     ⟨rfl, Or.inr (Or.inl (by decide))⟩,
   (c10_canonicalize_spec.2.2.2 "arn:aws:sts::123456789012:federated-user/Bob"
     ⟨"aws", "sts", "", "123456789012", "federated-user/Bob"⟩ (by decide) (by decide)).2.1
     ⟨rfl, by decide⟩,
   (c10_canonicalize_spec.2.2.2 "arn:aws:sts::123456789012:assumed-role/path/Accounting-Role/Mary"
     ⟨"aws", "sts", "", "123456789012", "assumed-role/path/Accounting-Role/Mary"⟩
     (by decide) (by decide)).2.2.1 ⟨rfl, by decide, by decide⟩,
   (c10_canonicalize_spec.2.2.2 "arn:aws:sts::123456789012:assumed-role/OnlyRole"
     ⟨"aws", "sts", "", "123456789012", "assumed-role/OnlyRole"⟩ (by decide) (by decide)).2.2.2.1
     ⟨rfl, by decide, by decide⟩,
   (c10_canonicalize_spec.2.2.2 "arn:aws:sts::123456789012:whatever/x"
     ⟨"aws", "sts", "", "123456789012", "whatever/x"⟩ (by decide) (by decide)).2.2.2.2.1
     ⟨rfl, by decide, by decide⟩,
   (c10_canonicalize_spec.2.2.2 "arn:aws:iam::123456789012:group/admins"
     ⟨"aws", "iam", "", "123456789012", "group/admins"⟩ (by decide) (by decide)).2.2.2.2.2.1
     ⟨rfl, by decide, by decide, by decide⟩,
   (c10_canonicalize_spec.2.2.2 "arn:aws:s3:::bucket"
     ⟨"aws", "s3", "", "", "bucket"⟩ (by decide) (by decide)).2.2.2.2.2.2
     ⟨by decide, by decide⟩⟩
